import Mathlib

/-! Verification of the building-energy digital-twin core
(`backend/app/simulation/`: `thermal_model.py`, `mpc_controller.py`,
`scenarios.py`) against its natural-language specification.

Shallow embedding conventions:
* Python floats are modelled as exact rationals (`ℚ`); `round(x, d)` is
  modelled by `roundTo d` below (nearest multiple of `10^(-d)`, ties up --
  Python rounds ties to even on the binary value; no statement here depends
  on the behaviour at an exact tie).
* numpy arrays become `List ℚ`; an out-of-range index access (Python
  `IndexError`) is modelled by `Option` propagating `none`.
* ISO-8601 timestamp formatting (`datetime.fromtimestamp(ts).isoformat()`)
  is an injective function of the numeric timestamp; the embedding keeps
  the numeric timestamps themselves in the result.
-/

/-- Embedding of Python `round(x, 2)`: round to the nearest multiple of
1/100 (ties rounded up; Python uses ties-to-even on the binary float --
the difference matters only at exact .005 midpoints, which no claim in
this development touches). -/
def round2 (x : ℚ) : ℚ := (round (x * 100) : ℤ) / 100

/-- Embedding of Python `round(x, 1)`. -/
def round1 (x : ℚ) : ℚ := (round (x * 10) : ℤ) / 10

/-- Embedding of Python `round(x, 3)`. -/
def round3 (x : ℚ) : ℚ := (round (x * 1000) : ℤ) / 1000

/-- Embedding of Python `int(x)` on a non-negative or negative float:
truncation toward zero. -/
def truncInt (x : ℚ) : ℤ := if 0 ≤ x then ⌊x⌋ else -⌊-x⌋

/-- Embedding of `int((ts / 3600) % 24)` for a numeric Unix timestamp
`ts`: the hour-of-day used by the schedules (`thermal_model.py` line 263,
`scenarios.py`).  Python's float `%` returns a value in `[0, 24)` and
`int` truncates it, which equals `⌊ts/3600⌋ mod 24` with a non-negative
remainder, i.e. `Int.emod`. -/
def hourOf (ts : ℚ) : ℤ := ⌊ts / 3600⌋ % 24

/-- Embedding of `max(abs(q) for q in l) if l else 0.0`
(`thermal_model.py` line 337; every `|q|` is non-negative so folding with
initial value 0 agrees with Python's `max` on a non-empty list). -/
def maxAbs (l : List ℚ) : ℚ := l.foldr (fun q m => max |q| m) 0

/-- Embedding of `np.mean` on a 1-D array (`mpc_controller.py`).
`np.mean` of an empty array is NaN in Python (with a warning, no
exception); the embedding returns 0 there -- no claim depends on the
value taken on an empty array. -/
def npMean (l : List ℚ) : ℚ := l.sum / (l.length : ℚ)

/-- Embedding of `np.clip(x, lo, hi)` (applies the upper bound last). -/
def npClip (x lo hi : ℚ) : ℚ := min hi (max x lo)

/-- Structure `ThermalParameters` (thermal_model.py lines 24-48): 2R2C model
parameters for a building zone, with the source's default values. -/
structure ThermalParameters where
  C_i : ℚ := 5000000
  C_w : ℚ := 50000000
  R_iw : ℚ := 1/500
  R_we : ℚ := 1/1000
  A_solar : ℚ := 100
  COP_cool : ℚ := 7/2
  COP_heat : ℚ := 4
  hvac_capacity_kw : ℚ := 100
  floor_area_m2 : ℚ := 4500
  n_floors : ℕ := 5
  deriving DecidableEq

/-- Structure `SimulationInputs` (thermal_model.py lines 51-67).  The numpy series
become lists; `hvac_mode` entries are the integer codes the source casts
to with `int(...)`. -/
structure SimulationInputs where
  timestamps : List ℚ
  T_ext : List ℚ
  solar_radiation : List ℚ
  occupancy : List ℚ
  setpoint : List ℚ
  hvac_mode : List ℤ
  initial_T_i : ℚ := 22
  initial_T_w : ℚ := 22
  electricity_price : Option (List ℚ) := none
  deriving DecidableEq

/-- Structure `SimulationResult` (thermal_model.py lines 70-88).  `timestamps`
keeps the numeric values whose ISO rendering the source returns. -/
structure SimulationResult where
  timestamps : List ℚ
  T_internal : List ℚ
  T_wall : List ℚ
  Q_hvac : List ℚ
  energy_kwh : List ℚ
  comfort_violation : List ℚ
  hvac_mode_actual : List String
  total_energy_kwh : ℚ := 0
  total_cost_eur : ℚ := 0
  avg_comfort_score : ℚ := 100
  peak_power_kw : ℚ := 0
  heating_hours : ℕ := 0
  cooling_hours : ℕ := 0
  deriving DecidableEq

namespace ThermalModel2R2C

/-- Class constant `INTERNAL_GAIN_PER_PERSON` (W per occupant). -/
def INTERNAL_GAIN_PER_PERSON : ℚ := 100

/-- Class constant `EQUIPMENT_BASE_LOAD` (W/m2). -/
def EQUIPMENT_BASE_LOAD : ℚ := 10

/-- Class constant `LIGHTING_LOAD` (W/m2). -/
def LIGHTING_LOAD : ℚ := 10

/-- Class constant `DEADBAND` (°C). -/
def DEADBAND : ℚ := 1/2

/-- Embedding of `_compute_internal_gains` (thermal_model.py lines 121-150): occupant
sensible heat plus time-of-day equipment and lighting schedules. -/
def compute_internal_gains (occupancy : ℚ) (hour : ℤ) (floor_area : ℚ) : ℚ :=
  let occupant_gain := occupancy * INTERNAL_GAIN_PER_PERSON
  let equipment_factor : ℚ :=
    if 8 ≤ hour ∧ hour ≤ 18 then 1
    else if 6 ≤ hour ∧ hour ≤ 20 then 1/2
    else 1/5
  let equipment_gain := EQUIPMENT_BASE_LOAD * floor_area * equipment_factor
  let lighting_factor : ℚ :=
    if 7 ≤ hour ∧ hour ≤ 19 then (if occupancy > 0 then 4/5 else 3/10)
    else 1/10
  let lighting_gain := LIGHTING_LOAD * floor_area * lighting_factor
  occupant_gain + equipment_gain + lighting_gain

/-- Embedding of `_compute_solar_gains` (thermal_model.py lines 152-166). -/
def compute_solar_gains (p : ThermalParameters) (radiation : ℚ) (hour : ℤ) : ℚ :=
  let shading_factor : ℚ := if 11 ≤ hour ∧ hour ≤ 15 then 1/2 else 4/5
  radiation * p.A_solar * shading_factor

/-- Embedding of `_hvac_controller` (thermal_model.py lines 168-201): deadband
proportional controller.  `prev_mode` is accepted and ignored, exactly as
in the source.  Any mode code other than 0/1/2 falls into the final
`else` (auto) branch. -/
def hvac_controller (p : ThermalParameters) (T_i setpoint : ℚ) (mode : ℤ)
    (prev_mode : String) : ℚ × String :=
  let _ := prev_mode
  let error := setpoint - T_i
  let capacity := p.hvac_capacity_kw * 1000
  if mode = 0 then (0, "off")
  else if mode = 1 then
    (if error > DEADBAND then (min (error * 10000) capacity, "heating")
     else (0, "idle"))
  else if mode = 2 then
    (if error < -DEADBAND then (max (error * 10000) (-capacity), "cooling")
     else (0, "idle"))
  else
    (if error > DEADBAND then (min (error * 10000) capacity, "heating")
     else if error < -DEADBAND then (max (error * 10000) (-capacity), "cooling")
     else (0, "idle"))

/-- Embedding of `_state_derivatives` (thermal_model.py lines 203-225). -/
def state_derivatives (p : ThermalParameters) (T_i T_w T_ext Q_solar Q_int Q_hvac : ℚ) :
    ℚ × ℚ :=
  let Q_iw := (T_w - T_i) / p.R_iw
  let Q_we := (T_ext - T_w) / p.R_we
  ((1 / p.C_i) * (Q_iw + Q_hvac + Q_int), (1 / p.C_w) * (-Q_iw + Q_we + Q_solar))

/-- The loop state of `simulate`'s integration loop (thermal_model.py
lines 236-321).  `Q_raw_hist` is an observer recording the raw thermal
power (W) of each executed step -- not stored by the source, added so the
energy-accounting statement can name the per-step powers; it influences
nothing else. -/
structure LoopState where
  idx : ℕ
  T_i : ℚ
  T_w : ℚ
  T_i_hist : List ℚ
  T_w_hist : List ℚ
  Q_raw_hist : List ℚ
  Q_hvac_hist : List ℚ
  energy_hist : List ℚ
  comfort_hist : List ℚ
  mode_hist : List String
  cumulative_energy : ℚ
  cumulative_cost : ℚ
  heating_hours : ℕ
  cooling_hours : ℕ
  prev_mode : String
  deriving DecidableEq

/-- One iteration of the `for i in range(n_steps - 1)` loop of `simulate`
(thermal_model.py lines 259-321), at `i = st.idx`.  A missing index on
any of the series is Python's `IndexError`, modelled as `none`. -/
def simStep (p : ThermalParameters) (inp : SimulationInputs) (prices : List ℚ)
    (st : LoopState) : Option LoopState :=
  match inp.timestamps[st.idx]?, inp.solar_radiation[st.idx]?, inp.occupancy[st.idx]?,
        inp.setpoint[st.idx]?, inp.hvac_mode[st.idx]?, inp.T_ext[st.idx]?,
        prices[st.idx]? with
  | some ts, some rad, some occ, some sp, some mode, some text, some price =>
      let hour := hourOf ts
      let Q_solar := compute_solar_gains p rad hour
      let Q_int := compute_internal_gains occ hour p.floor_area_m2
      let hc := hvac_controller p st.T_i sp mode st.prev_mode
      let Q_hvac := hc.1
      let mode_str := hc.2
      let d := state_derivatives p st.T_i st.T_w text Q_solar Q_int Q_hvac
      let T_i1 := st.T_i + d.1 * 3600
      let T_w1 := st.T_w + d.2 * 3600
      let T_i2 := max 10 (min 40 T_i1)
      let T_w2 := max 5 (min 45 T_w1)
      let electrical_kw :=
        if Q_hvac > 0 then (Q_hvac / 1000) / p.COP_heat
        else (|Q_hvac| / 1000) / p.COP_cool
      let cum := st.cumulative_energy + electrical_kw
      let cost := st.cumulative_cost + electrical_kw * price
      let violation := |T_i2 - sp|
      some {
        idx := st.idx + 1
        T_i := T_i2
        T_w := T_w2
        T_i_hist := st.T_i_hist ++ [round2 T_i2]
        T_w_hist := st.T_w_hist ++ [round2 T_w2]
        Q_raw_hist := st.Q_raw_hist ++ [Q_hvac]
        Q_hvac_hist := st.Q_hvac_hist ++ [round2 (Q_hvac / 1000)]
        energy_hist := st.energy_hist ++ [round2 cum]
        comfort_hist := st.comfort_hist ++ [round2 violation]
        mode_hist := st.mode_hist ++ [mode_str]
        cumulative_energy := cum
        cumulative_cost := cost
        heating_hours := st.heating_hours + (if mode_str = "heating" then 1 else 0)
        cooling_hours := st.cooling_hours + (if mode_str = "cooling" then 1 else 0)
        prev_mode := mode_str }
  | _, _, _, _, _, _, _ => none

/-- The integration loop, running `k` further iterations. -/
def simLoop (p : ThermalParameters) (inp : SimulationInputs) (prices : List ℚ) :
    ℕ → LoopState → Option LoopState
  | 0, st => some st
  | k + 1, st => (simStep p inp prices st).bind (simLoop p inp prices k)

/-- The initial loop state (thermal_model.py lines 236-252). -/
def initState (inp : SimulationInputs) : LoopState :=
  { idx := 0
    T_i := inp.initial_T_i
    T_w := inp.initial_T_w
    T_i_hist := [inp.initial_T_i]
    T_w_hist := [inp.initial_T_w]
    Q_raw_hist := []
    Q_hvac_hist := []
    energy_hist := [0]
    comfort_hist := []
    mode_hist := []
    cumulative_energy := 0
    cumulative_cost := 0
    heating_hours := 0
    cooling_hours := 0
    prev_mode := "idle" }

/-- Result assembly (thermal_model.py lines 323-353). -/
def assemble (inp : SimulationInputs) (st : LoopState) : SimulationResult :=
  let avg_violation :=
    if st.comfort_hist.isEmpty then 0 else npMean st.comfort_hist
  let comfort_score := max 0 (100 - avg_violation * 20)
  let peak_power := maxAbs st.Q_hvac_hist
  { timestamps := inp.timestamps
    T_internal := st.T_i_hist
    T_wall := st.T_w_hist
    Q_hvac := st.Q_hvac_hist
    energy_kwh := st.energy_hist
    comfort_violation := st.comfort_hist
    hvac_mode_actual := st.mode_hist
    total_energy_kwh := round2 st.cumulative_energy
    total_cost_eur := round2 st.cumulative_cost
    avg_comfort_score := round1 comfort_score
    peak_power_kw := round2 peak_power
    heating_hours := st.heating_hours
    cooling_hours := st.cooling_hours }

/-- Embedding of `simulate` (thermal_model.py lines 227-353): Euler integration with
1-hour timesteps over `n_steps - 1` iterations, default electricity price
0.15 EUR/kWh when none supplied.  `none` models an `IndexError` raised by
a series shorter than the loop requires. -/
def simulate (p : ThermalParameters) (inp : SimulationInputs) : Option SimulationResult :=
  let n_steps := inp.timestamps.length
  let prices := inp.electricity_price.getD (List.replicate n_steps (3/20))
  (simLoop p inp prices (n_steps - 1) (initState inp)).map (assemble inp)

end ThermalModel2R2C

/-- Structure `MPCConfig` (mpc_controller.py lines 31-56), with the source's
default values. -/
structure MPCConfig where
  horizon_hours : ℕ := 24
  timestep_minutes : ℕ := 60
  comfort_band : ℚ := 1
  min_temp : ℚ := 19
  max_temp : ℚ := 26
  energy_weight : ℚ := 1
  comfort_weight : ℚ := 10
  ramp_weight : ℚ := 1/10
  max_heating_kw : ℚ := 50
  max_cooling_kw : ℚ := 100
  ramp_limit_kw : ℚ := 20
  COP_heat : ℚ := 4
  COP_cool : ℚ := 7/2
  deriving DecidableEq

/-- One entry of the per-hour display schedule built by `_build_result`
(mpc_controller.py lines 377-390).  The `timestamp` field of the source
is rendered from the wall clock (`datetime.now()`), is display-only and
carries no information about the optimization; it is omitted here. -/
structure ScheduleEntry where
  hour : ℤ
  setpoint : ℚ
  predicted_temp : ℚ
  predicted_power_kw : ℚ
  electricity_price : ℚ
  occupancy : ℤ
  outdoor_temp : ℚ
  deriving DecidableEq

/-- Structure `MPCResult` (mpc_controller.py lines 59-83).  `solve_time_ms` is
wall-clock time in the source; the embedding carries the field (it is
part of the result schema) with the pre-measurement value 0. -/
structure MPCResult where
  optimal_setpoints : List ℚ
  predicted_temps : List ℚ
  predicted_power : List ℚ
  predicted_energy : List ℚ
  total_energy_kwh : ℚ
  total_cost_eur : ℚ
  baseline_energy_kwh : ℚ
  baseline_cost_eur : ℚ
  cost_savings_percent : ℚ
  comfort_score : ℚ
  optimization_status : String
  solve_time_ms : ℚ
  horizon_hours : ℕ
  schedule : List ScheduleEntry
  deriving DecidableEq

/-- Outcome of `problem.solve(...)` in `_optimize_cvxpy`
(mpc_controller.py lines 230-245): the status string and the values of
the decision variables `T` (length N+1) and `Q` (length N).  The convex
solve itself is an external numerical routine; the embedding treats its
outcome as an oracle input and verifies the surrounding control flow. -/
structure SolverOracle where
  status : String
  T : List ℚ
  Q : List ℚ

/-- The statuses accepted by `_optimize_cvxpy` (mpc_controller.py
line 237). -/
def okStatuses : List String := ["optimal", "optimal_inaccurate"]

namespace MPCController

/-- Embedding of `_temps_to_setpoints` (mpc_controller.py lines 409-426). -/
def temps_to_setpoints (cfg : MPCConfig) (temps powers : List ℚ) : List ℚ :=
  (temps.dropLast.zip powers).map (fun tq =>
    let sp := if tq.2 > 5 then tq.1 + 1/2
              else if tq.2 < -5 then tq.1 - 1/2
              else tq.1
    round1 (max cfg.min_temp (min cfg.max_temp sp)))

/-- The `for k in range(N)` schedule loop of `_build_result`
(mpc_controller.py lines 379-390), building entries for indices
`k, k+1, …, k+n-1`; a missing index is an `IndexError` (`none`). -/
def buildSchedule (setpoints temps powers prices occupancy T_ext : List ℚ)
    (current_hour : ℤ) : ℕ → ℕ → Option (List ScheduleEntry)
  | _, 0 => some []
  | k, n + 1 =>
    match setpoints[k]?, temps[k]?, powers[k]?, prices[k]?, occupancy[k]?, T_ext[k]? with
    | some sp, some t, some pw, some pr, some oc, some te =>
        (buildSchedule setpoints temps powers prices occupancy T_ext current_hour (k + 1) n).map
          (fun rest =>
            { hour := (current_hour + k) % 24
              setpoint := round1 sp
              predicted_temp := round1 t
              predicted_power_kw := round1 pw
              electricity_price := round3 pr
              occupancy := truncInt oc
              outdoor_temp := round1 te } :: rest)
    | _, _, _, _, _, _ => none

/-- Embedding of `_build_result` (mpc_controller.py lines 335-407): COP conversion of
thermal power to electrical energy, totals, the no-optimization baseline,
savings percentage, comfort score, setpoint schedule and display
schedule. -/
def build_result (cfg : MPCConfig) (opt_temps opt_power T_ext occupancy prices : List ℚ)
    (preferred_setpoint : ℚ) (current_hour : ℤ) (N : ℕ) (status : String) :
    Option MPCResult :=
  let opt_energy := opt_power.map (fun Q =>
    if Q > 0 then Q / cfg.COP_heat else |Q| / cfg.COP_cool)
  let total_energy := opt_energy.sum
  let total_cost := ((opt_energy.zip prices).map (fun ep => ep.1 * ep.2)).sum
  let baseline_energy :=
    (T_ext.map (fun t => |preferred_setpoint - t| * 5 / cfg.COP_cool)).sum
  let baseline_cost := baseline_energy * npMean prices
  let savings_percent :=
    if baseline_cost > 0 then (baseline_cost - total_cost) / baseline_cost * 100 else 0
  let violations :=
    (((opt_temps.dropLast.zip occupancy).filter (fun p => p.2 > 5)).map
      (fun p => |p.1 - preferred_setpoint|)).sum
  let comfort_score := max 0 (100 - violations * 5)
  let opt_setpoints := temps_to_setpoints cfg opt_temps opt_power
  (buildSchedule opt_setpoints opt_temps opt_power prices occupancy T_ext
      current_hour 0 N).map (fun schedule =>
    { optimal_setpoints := opt_setpoints
      predicted_temps := opt_temps.map round2
      predicted_power := opt_power.map round2
      predicted_energy := opt_energy.map round2
      total_energy_kwh := round2 total_energy
      total_cost_eur := round2 total_cost
      baseline_energy_kwh := round2 baseline_energy
      baseline_cost_eur := round2 baseline_cost
      cost_savings_percent := round1 savings_percent
      comfort_score := round1 comfort_score
      optimization_status := status
      solve_time_ms := 0
      horizon_hours := N
      schedule := schedule })

/-- Loop state of `_optimize_simple`'s `for k in range(N)` loop
(mpc_controller.py lines 271-328). -/
structure SimpleState where
  k : ℕ
  T_current : ℚ
  opt_temps : List ℚ
  opt_power : List ℚ
  deriving DecidableEq

/-- One iteration of the `_optimize_simple` loop (mpc_controller.py
lines 277-328).  `decay` stands for the float constant
`np.exp(-3600/10000)` (line 324), a fixed transcendental the float
runtime evaluates once; every statement proved below holds for every
value of it. -/
def simpleStep (decay : ℚ) (cfg : MPCConfig) (T_ext occupancy prices : List ℚ)
    (preferred_setpoint : ℚ) (N : ℕ) (st : SimpleState) : Option SimpleState :=
  match occupancy[st.k]?, prices[st.k]?, T_ext[st.k]? with
  | some occ, some price, some text =>
    let m := npMean prices
    let is_occupied := occ > 5
    let is_high_price := price > m * (6/5)
    let next_high_price :=
      if st.k + 1 < N then
        match prices[st.k + 1]? with
        | some pn => some (pn > m * (6/5))
        | none => none
      else some false
    match next_high_price with
    | none => none
    | some nhp =>
      let target := if is_occupied then preferred_setpoint
        else if text > 25 then preferred_setpoint + 2 else preferred_setpoint - 2
      let target := if nhp ∧ ¬ is_high_price then
          (if text > 25 then target - 3/2 else target + 3/2) else target
      let target := if is_high_price ∧ ¬ is_occupied then
          (if text > 25 then target + 3/2 else target - 3/2) else target
      let error := target - st.T_current
      let power :=
        if |error| > 1/2 then
          (if error > 0 then min (error * 10) cfg.max_heating_kw
           else max (error * 10) (-cfg.max_cooling_kw))
        else 0
      let T_next := decay * st.T_current + (1 - decay) * text + (1/5000) * power * 3600
      let T_c := npClip T_next (cfg.min_temp - 1) (cfg.max_temp + 1)
      some { k := st.k + 1
             T_current := T_c
             opt_temps := st.opt_temps ++ [T_c]
             opt_power := st.opt_power ++ [power] }
  | _, _, _ => none

/-- The `_optimize_simple` loop, running `n` further iterations. -/
def simpleLoop (decay : ℚ) (cfg : MPCConfig) (T_ext occupancy prices : List ℚ)
    (preferred_setpoint : ℚ) (N : ℕ) : ℕ → SimpleState → Option SimpleState
  | 0, st => some st
  | n + 1, st =>
    (simpleStep decay cfg T_ext occupancy prices preferred_setpoint N st).bind
      (simpleLoop decay cfg T_ext occupancy prices preferred_setpoint N n)

/-- Embedding of `_optimize_simple` (mpc_controller.py lines 253-333): the
deterministic rule-based heuristic; always tags its result
`"heuristic"`. -/
def optimize_simple (decay : ℚ) (cfg : MPCConfig) (current_temp : ℚ)
    (T_ext occupancy prices : List ℚ) (preferred_setpoint : ℚ)
    (current_hour : ℤ) (N : ℕ) : Option MPCResult :=
  (simpleLoop decay cfg T_ext occupancy prices preferred_setpoint N N
      { k := 0, T_current := current_temp, opt_temps := [current_temp], opt_power := [] }).bind
    (fun st => build_result cfg st.opt_temps st.opt_power T_ext occupancy prices
      preferred_setpoint current_hour N "heuristic")

/-- Embedding of `_optimize_cvxpy` (mpc_controller.py lines 160-251) with the solve
abstracted into `oracle`.  Before the solve the source builds the
objective `prices @ cp.abs(Q)` -- a shape mismatch (`len(prices) ≠ N`)
raises -- and the constraint loops index `T_ext[k]` and `occupancy[k]`
for `k < N` -- a short array raises `IndexError`.  A status outside
`okStatuses` falls back to `_optimize_simple`; otherwise the oracle's
variable values are passed to `_build_result` with the solver status. -/
def optimize_cvxpy (oracle : SolverOracle) (decay : ℚ) (cfg : MPCConfig)
    (current_temp : ℚ) (T_ext occupancy prices : List ℚ) (preferred_setpoint : ℚ)
    (current_hour : ℤ) (N : ℕ) : Option MPCResult :=
  if prices.length ≠ N then none
  else if T_ext.length < N then none
  else if occupancy.length < N then none
  else if oracle.status ∈ okStatuses then
    build_result cfg oracle.T oracle.Q T_ext occupancy prices preferred_setpoint
      current_hour N oracle.status
  else
    optimize_simple decay cfg current_temp T_ext occupancy prices preferred_setpoint
      current_hour N

/-- Embedding of `optimize` (mpc_controller.py lines 110-158): horizon
`N = min(len(weather_forecast), config.horizon_hours)`, truncation of the
three forecast arrays to `N`, dispatch on `CVXPY_AVAILABLE`, and the
final metadata write `result.horizon_hours = N` (the wall-clock
`solve_time_ms` measurement is external to the embedding). -/
def optimize (cvxpy_available : Bool) (oracle : SolverOracle) (decay : ℚ)
    (cfg : MPCConfig) (current_temp : ℚ)
    (weather_forecast occupancy_forecast electricity_prices : List ℚ)
    (preferred_setpoint : ℚ) (current_hour : ℤ) : Option MPCResult :=
  let N := min weather_forecast.length cfg.horizon_hours
  let T_ext := weather_forecast.take N
  let occupancy := occupancy_forecast.take N
  let prices := electricity_prices.take N
  let res :=
    if cvxpy_available then
      optimize_cvxpy oracle decay cfg current_temp T_ext occupancy prices
        preferred_setpoint current_hour N
    else
      optimize_simple decay cfg current_temp T_ext occupancy prices
        preferred_setpoint current_hour N
  res.map (fun r => { r with horizon_hours := N })

end MPCController

/-- Enumeration `ScenarioType` (scenarios.py lines 30-37): the closed set of scenario
type tags; only the first five have builders. -/
inductive ScenarioType where
  | setpoint_change
  | occupancy_pattern
  | weather_forecast
  | demand_response
  | equipment_efficiency
  | schedule_optimization
  deriving DecidableEq

/-- The `.value` string of each `ScenarioType` member (the source is a
`str` enum whose members format as their value). -/
def scenarioTypeName : ScenarioType → String
  | .setpoint_change => "setpoint_change"
  | .occupancy_pattern => "occupancy_pattern"
  | .weather_forecast => "weather_forecast"
  | .demand_response => "demand_response"
  | .equipment_efficiency => "equipment_efficiency"
  | .schedule_optimization => "schedule_optimization"

/-- The parameter bag (`parameters: Dict[str, Any]`), with one field per
key the five builders read; each default is the corresponding
`params.get(key, default)` fallback in scenarios.py. -/
structure ScenarioParams where
  delta_temp : ℚ := 0
  hours : List ℤ := []
  deadband_expansion : ℚ := 0
  occupancy_factor : ℚ := 1
  min_temp : Option ℚ := none
  max_temp : Option ℚ := none
  temp_delta : ℚ := 0
  temp_set : Option ℚ := none
  solar_factor : ℚ := 1
  reduction_percent : ℚ := 0
  peak_hours : List ℤ := [14, 15, 16, 17]
  pre_cool_hours : List ℤ := []
  pre_cool_delta : ℚ := -2
  cop_reduction_percent : ℚ := 0
  cop_increase_percent : ℚ := 0
  deriving DecidableEq

/-- Python truthiness of an optional float (`if min_temp and max_temp:`
in `_build_occupancy_scenario`): `None` and `0.0` are falsy. -/
def truthyQ : Option ℚ → Bool
  | none => false
  | some x => x ≠ 0

/-- Structure `ScenarioConfig` (scenarios.py lines 40-49). -/
structure ScenarioConfig where
  id : String
  name : String
  description : String
  scenario_type : ScenarioType
  parameters : ScenarioParams
  icon : String := "settings"
  estimated_savings_percent : ℚ := 0
  deriving DecidableEq

/-- A `ThermalModel2R2C` instance as the scenario engine sees it: its
parameter set plus the calibration flags set by
`create_building_model`. -/
structure ThermalModel where
  params : ThermalParameters
  calibrated : Bool := false
  calibration_r2 : ℚ := 0
  deriving DecidableEq

/-- Embedding of `create_building_model` (thermal_model.py lines 425-454): the
per-building parameter table, defaults for unknown identifiers, and the
calibration flags the factory sets. -/
def create_building_model (building_id : String) : ThermalModel :=
  let params : ThermalParameters :=
    if building_id = "pleiades-a" then
      { C_i := 6000000, C_w := 60000000, R_iw := 1/500, R_we := 1/1000
        A_solar := 120, hvac_capacity_kw := 150
        floor_area_m2 := 4500, n_floors := 5 }
    else if building_id = "pleiades-b" then
      { C_i := 4000000, C_w := 40000000, R_iw := 1/500, R_we := 1/1000
        A_solar := 70, hvac_capacity_kw := 80
        floor_area_m2 := 2500, n_floors := 2 }
    else if building_id = "pleiades-c" then
      { C_i := 2000000, C_w := 20000000, R_iw := 1/500, R_we := 1/1000
        A_solar := 40, hvac_capacity_kw := 40
        floor_area_m2 := 1200, n_floors := 1 }
    else {}
  { params := params, calibrated := true, calibration_r2 := 17/20 }

/-- One point of the chart timeline built by `_format_timeline`
(scenarios.py lines 601-614). -/
structure TimelinePoint where
  timestamp : ℚ
  temperature : ℚ
  energy_cumulative : ℚ
  hvac_power : ℚ
  comfort_violation : ℚ
  deriving DecidableEq

/-- One recommendation produced by `_generate_recommendations`
(scenarios.py lines 616-673).  The source renders each rule as a
formatted English sentence; the embedding keeps the rule that fired
together with the numeric payload the sentence interpolates (string
formatting is display-only). -/
inductive RecRule where
  | adopt (savings_percent : ℚ)
  | offHoursOnly (savings_percent comfort_impact : ℚ)
  | stressTest (savings_percent : ℚ)
  | peakIncrease (baseline_peak scenario_peak : ℚ)
  | peakDecrease (reduction_percent : ℚ)
  | annualProjection (annual_savings savings_percent : ℚ)
  | runMore
  deriving DecidableEq

/-- Structure `ScenarioComparison` (scenarios.py lines 52-82). -/
structure ScenarioComparison where
  scenario_id : String
  scenario_name : String
  baseline_energy_kwh : ℚ
  scenario_energy_kwh : ℚ
  energy_savings_kwh : ℚ
  energy_savings_percent : ℚ
  baseline_cost_eur : ℚ
  scenario_cost_eur : ℚ
  cost_savings_eur : ℚ
  carbon_savings_kg : ℚ
  baseline_comfort_score : ℚ
  scenario_comfort_score : ℚ
  comfort_impact : ℚ
  baseline_timeline : List TimelinePoint
  scenario_timeline : List TimelinePoint
  recommendations : List RecRule
  deriving DecidableEq

namespace ScenarioEngine

/-- Class constant `CARBON_FACTOR` (kg CO2 per kWh). -/
def CARBON_FACTOR : ℚ := 1/4

/-- Embedding of `_copy_inputs` (scenarios.py lines 534-546): a deep copy of every
series; on immutable rational lists this is the identity. -/
def copy_inputs (i : SimulationInputs) : SimulationInputs := i

/-- Embedding of `_build_setpoint_scenario` (scenarios.py lines 402-424).  The source
walks `enumerate(baseline.timestamps)` and updates `new_setpoints[i]`;
the embedding walks the setpoint series and looks the timestamp up, which
agrees whenever the two series are index-aligned (the `SimulationInputs`
length invariant; `_generate_baseline_inputs` always produces it). -/
def build_setpoint_scenario (baseline : SimulationInputs) (ps : ScenarioParams)
    (model : ThermalModel) : SimulationInputs × ThermalModel :=
  let news := baseline.setpoint.enum.map (fun e =>
    match baseline.timestamps[e.1]? with
    | none => e.2
    | some ts =>
      let hour := hourOf ts
      let sp1 := if hour ∈ ps.hours then e.2 + ps.delta_temp else e.2
      if ps.deadband_expansion > 0 then
        sp1 + (if e.1 % 2 = 0 then ps.deadband_expansion else -ps.deadband_expansion) * (3/10)
      else sp1)
  ({ copy_inputs baseline with setpoint := news }, model)

/-- Embedding of `_build_occupancy_scenario` (scenarios.py lines 426-459): scale the
occupancy series, then widen the setpoint wherever scaled occupancy drops
below 5 (toward configured truthy min/max bounds, else by ±2 °C,
direction chosen by the outdoor temperature). -/
def build_occupancy_scenario (baseline : SimulationInputs) (ps : ScenarioParams)
    (model : ThermalModel) : SimulationInputs × ThermalModel :=
  let newocc := baseline.occupancy.map (· * ps.occupancy_factor)
  let news := baseline.setpoint.enum.map (fun e =>
    match newocc[e.1]?, baseline.T_ext[e.1]? with
    | some occ, some text =>
      if occ < 5 then
        if truthyQ ps.min_temp ∧ truthyQ ps.max_temp then
          (if text > 25 then ps.max_temp.getD 0 else ps.min_temp.getD 0)
        else
          (if text > 25 then e.2 + 2 else e.2 - 2)
      else e.2
    | _, _ => e.2)
  ({ copy_inputs baseline with occupancy := newocc, setpoint := news }, model)

/-- Embedding of `_build_weather_scenario` (scenarios.py lines 461-479). -/
def build_weather_scenario (baseline : SimulationInputs) (ps : ScenarioParams)
    (model : ThermalModel) : SimulationInputs × ThermalModel :=
  let newT :=
    match ps.temp_set with
    | some v => List.replicate baseline.T_ext.length v
    | none => baseline.T_ext.map (· + ps.temp_delta)
  let newsolar := baseline.solar_radiation.map (· * ps.solar_factor)
  ({ copy_inputs baseline with T_ext := newT, solar_radiation := newsolar }, model)

/-- Embedding of `_build_demand_response_scenario` (scenarios.py lines 481-510). -/
def build_demand_response_scenario (baseline : SimulationInputs) (ps : ScenarioParams)
    (model : ThermalModel) : SimulationInputs × ThermalModel :=
  let reduction := ps.reduction_percent / 100
  let news := baseline.setpoint.enum.map (fun e =>
    match baseline.timestamps[e.1]? with
    | none => e.2
    | some ts =>
      let hour := hourOf ts
      if hour ∈ ps.pre_cool_hours then e.2 + ps.pre_cool_delta
      else if hour ∈ ps.peak_hours then
        match baseline.T_ext[e.1]? with
        | some text => if text > 25 then e.2 + 3 * reduction else e.2 - 3 * reduction
        | none => e.2
      else e.2)
  ({ copy_inputs baseline with setpoint := news }, model)

/-- Embedding of `_build_efficiency_scenario` (scenarios.py lines 512-532): the inputs
are returned unchanged, and the scenario model is built from
`create_building_model("pleiades-a")` -- a fixed identifier, not the
model passed in -- with its COPs scaled down (`cop_reduction_percent`) or
up (`cop_increase_percent`). -/
def build_efficiency_scenario (baseline : SimulationInputs) (ps : ScenarioParams)
    (model : ThermalModel) : SimulationInputs × ThermalModel :=
  let _ := model
  let scenario := copy_inputs baseline
  let model_copy := create_building_model "pleiades-a"
  let cop_reduction := ps.cop_reduction_percent / 100
  let cop_increase := ps.cop_increase_percent / 100
  let newparams :=
    if cop_reduction > 0 then
      { model_copy.params with
        COP_cool := model_copy.params.COP_cool * (1 - cop_reduction)
        COP_heat := model_copy.params.COP_heat * (1 - cop_reduction) }
    else if cop_increase > 0 then
      { model_copy.params with
        COP_cool := model_copy.params.COP_cool * (1 + cop_increase)
        COP_heat := model_copy.params.COP_heat * (1 + cop_increase) }
    else model_copy.params
  (scenario, { model_copy with params := newparams })

/-- The `_scenario_builders` dispatch table (scenarios.py lines 255-261):
five scenario types map to builders; `schedule_optimization` has no entry
(`dict.get` returns `None`). -/
def scenarioBuilderOf (t : ScenarioType) :
    Option (SimulationInputs → ScenarioParams → ThermalModel → SimulationInputs × ThermalModel)
  :=
  match t with
  | .setpoint_change => some build_setpoint_scenario
  | .occupancy_pattern => some build_occupancy_scenario
  | .weather_forecast => some build_weather_scenario
  | .demand_response => some build_demand_response_scenario
  | .equipment_efficiency => some build_efficiency_scenario
  | .schedule_optimization => none

/-- Embedding of `_format_timeline` (scenarios.py lines 601-614): one point per
timestamp until the temperature series runs out, with guarded backward
indexing into the per-step series. -/
def format_timeline (r : SimulationResult) : List TimelinePoint :=
  let n := min r.timestamps.length r.T_internal.length
  (List.range n).map (fun i =>
    { timestamp := r.timestamps.getD i 0
      temperature := r.T_internal.getD i 0
      energy_cumulative := if i < r.energy_kwh.length then r.energy_kwh.getD i 0 else 0
      hvac_power :=
        if 0 < i ∧ i - 1 < r.Q_hvac.length then r.Q_hvac.getD (i - 1) 0 else 0
      comfort_violation :=
        if 0 < i ∧ i - 1 < r.comfort_violation.length then
          r.comfort_violation.getD (i - 1) 0
        else 0 })

/-- Embedding of `_generate_recommendations` (scenarios.py lines 616-673): the rule
ladder, emitting at least one entry. -/
def generate_recommendations (baseline scenario : SimulationResult)
    (config : ScenarioConfig) (savings_percent comfort_impact : ℚ) : List RecRule :=
  let _ := config
  let recs : List RecRule :=
    (if savings_percent > 10 ∧ comfort_impact > -5 then [.adopt savings_percent]
     else if savings_percent > 5 ∧ comfort_impact < -5 then
       [.offHoursOnly savings_percent comfort_impact]
     else [])
    ++ (if savings_percent < 0 then [.stressTest savings_percent] else [])
    ++ (if scenario.peak_power_kw > baseline.peak_power_kw * (6/5) then
          [.peakIncrease baseline.peak_power_kw scenario.peak_power_kw]
        else if scenario.peak_power_kw < baseline.peak_power_kw * (4/5) then
          [.peakDecrease ((1 - scenario.peak_power_kw / baseline.peak_power_kw) * 100)]
        else [])
    ++ (if savings_percent > 0 then
          [.annualProjection (scenario.total_cost_eur * 365 * (savings_percent / 100))
            savings_percent]
        else [])
  if recs = [] then [.runMore] else recs

/-- Embedding of `_compare_results` (scenarios.py lines 548-599). -/
def compare_results (baseline scenario : SimulationResult) (config : ScenarioConfig) :
    ScenarioComparison :=
  let energy_baseline := baseline.total_energy_kwh
  let energy_scenario := scenario.total_energy_kwh
  let energy_savings := energy_baseline - energy_scenario
  let savings_percent :=
    if energy_baseline > 0 then energy_savings / energy_baseline * 100 else 0
  let cost_baseline := baseline.total_cost_eur
  let cost_scenario := scenario.total_cost_eur
  let cost_savings := cost_baseline - cost_scenario
  let carbon_savings := energy_savings * CARBON_FACTOR
  let comfort_baseline := baseline.avg_comfort_score
  let comfort_scenario := scenario.avg_comfort_score
  let comfort_impact := comfort_scenario - comfort_baseline
  { scenario_id := config.id
    scenario_name := config.name
    baseline_energy_kwh := round2 energy_baseline
    scenario_energy_kwh := round2 energy_scenario
    energy_savings_kwh := round2 energy_savings
    energy_savings_percent := round1 savings_percent
    baseline_cost_eur := round2 cost_baseline
    scenario_cost_eur := round2 cost_scenario
    cost_savings_eur := round2 cost_savings
    carbon_savings_kg := round2 carbon_savings
    baseline_comfort_score := round1 comfort_baseline
    scenario_comfort_score := round1 comfort_scenario
    comfort_impact := round1 comfort_impact
    baseline_timeline := format_timeline baseline
    scenario_timeline := format_timeline scenario
    recommendations := generate_recommendations baseline scenario config
      savings_percent comfort_impact }

/-- Embedding of `run_scenario` (scenarios.py lines 274-315).  The baseline input
synthesis `_generate_baseline_inputs` (lines 335-400) builds sine-shaped
weather and solar series through `np.sin` -- transcendental constants a
rational embedding cannot evaluate -- and reads the wall clock for the
default start date; its output is therefore passed in as
`baseline_inputs`.  Everything after that point is embedded: building the
model from the id, the builder dispatch with the unknown-type
`ValueError` (the `Except.error` naming the offending type), the two
simulation runs (an `IndexError` inside them propagates as the second
error form), and the comparison. -/
def run_scenario (config : ScenarioConfig) (building_id : String)
    (baseline_inputs : SimulationInputs) : Except String ScenarioComparison :=
  let model := create_building_model building_id
  match scenarioBuilderOf config.scenario_type with
  | none =>
      Except.error ("Unknown scenario type: " ++ scenarioTypeName config.scenario_type)
  | some builder =>
      let sm := builder baseline_inputs config.parameters model
      match ThermalModel2R2C.simulate model.params baseline_inputs,
            ThermalModel2R2C.simulate sm.2.params sm.1 with
      | some br, some sr => Except.ok (compare_results br sr config)
      | _, _ => Except.error "list index out of range"

end ScenarioEngine

/-- Rounding to two decimals moves its argument by at most 1/200. -/
theorem round2_sub_abs_le (x : ℚ) : |round2 x - x| ≤ 1/200 := by
  have h := abs_sub_round (x * 100)
  rw [abs_sub_comm] at h
  unfold round2
  have : (round (x * 100) : ℚ) / 100 - x = ((round (x * 100) : ℚ) - x * 100) / 100 := by
    ring
  rw [this, abs_div]
  have h100 : |(100 : ℚ)| = 100 := by norm_num
  rw [h100, div_le_iff₀ (by norm_num : (0:ℚ) < 100)]
  linarith

/-- The value `round2 x` is bounded by the argument plus 1/200 in absolute value. -/
theorem abs_round2_le (x : ℚ) : |round2 x| ≤ |x| + 1/200 := by
  have h := round2_sub_abs_le x
  calc |round2 x| = |(round2 x - x) + x| := by ring_nf
    _ ≤ |round2 x - x| + |x| := abs_add _ _
    _ ≤ |x| + 1/200 := by linarith

/-- Monotonicity of `round2`. -/
theorem round2_le_round2 {x y : ℚ} (h : x ≤ y) : round2 x ≤ round2 y := by
  unfold round2
  have : round (x * 100) ≤ round (y * 100) := by
    rw [round_eq, round_eq]
    exact Int.floor_mono (by linarith)
  have hc : ((round (x * 100) : ℤ) : ℚ) ≤ ((round (y * 100) : ℤ) : ℚ) := by
    exact_mod_cast this
  linarith

/-- Fixed points: `round2` fixes every integer multiple of 1/100. -/
theorem round2_int_div (n : ℤ) : round2 ((n : ℚ)/100) = (n : ℚ)/100 := by
  unfold round2
  have : ((n : ℚ)/100) * 100 = (n : ℚ) := by ring
  rw [this, round_intCast]

/-- Fixed points: `round2` fixes the integers (needed for the clamp bounds 10/40/5/45). -/
theorem round2_intCast (n : ℤ) : round2 (n : ℚ) = (n : ℚ) := by
  have h := round2_int_div (n * 100)
  have e : (((n * 100 : ℤ) : ℚ))/100 = (n : ℚ) := by push_cast; ring
  rw [e] at h
  exact h

/-- Non-negativity of `maxAbs`. -/
theorem maxAbs_nonneg (l : List ℚ) : 0 ≤ maxAbs l := by
  induction l with
  | nil => simp [maxAbs]
  | cons x t ih => simp only [maxAbs, List.foldr] at *; exact le_trans ih (le_max_right _ _)

/-- The value of `maxAbs` is bounded by any common bound on the absolute values. -/
theorem maxAbs_le {l : List ℚ} {c : ℚ} (hc : 0 ≤ c) (h : ∀ x ∈ l, |x| ≤ c) :
    maxAbs l ≤ c := by
  induction l with
  | nil => simpa [maxAbs] using hc
  | cons x t ih =>
      simp only [maxAbs, List.foldr] at *
      exact max_le (h x (by simp)) (ih (fun y hy => h y (by simp [hy])))

/-- The value of `maxAbs` on a list of integer multiples of 1/100 is such a multiple. -/
theorem maxAbs_int_div {l : List ℚ} (h : ∀ x ∈ l, ∃ n : ℤ, x = (n : ℚ)/100) :
    ∃ n : ℤ, maxAbs l = (n : ℚ)/100 := by
  induction l with
  | nil => exact ⟨0, by simp [maxAbs]⟩
  | cons x t ih =>
      obtain ⟨n, hn⟩ := h x (by simp)
      obtain ⟨m, hm⟩ := ih (fun y hy => h y (by simp [hy]))
      refine ⟨max |n| m, ?_⟩
      simp only [maxAbs, List.foldr] at *
      rw [hn, hm, abs_div]
      have h1 : |(100 : ℚ)| = 100 := by norm_num
      rw [h1, ← Int.cast_abs]
      rw [max_div_div_right (by norm_num : (0:ℚ) ≤ 100)]
      norm_cast

namespace ThermalModel2R2C

/-- The per-step electrical energy contribution exactly as the
specification's energy-accounting invariant words it: thermal power
divided by the heating COP when the power is positive, absolute thermal
power divided by the cooling COP otherwise, converted from W to kW (each
step spans one hour, so the kW figure is the kWh figure). -/
def stepElectricalKwh (p : ThermalParameters) (Q_hvac : ℚ) : ℚ :=
  if Q_hvac > 0 then (Q_hvac / 1000) / p.COP_heat else (|Q_hvac| / 1000) / p.COP_cool

/-- The controller's thermal power is clipped to the equipment capacity
(in W), for any mode and any temperatures, provided the configured
capacity is non-negative. -/
theorem hvac_controller_abs_le (p : ThermalParameters)
    (hcap : 0 ≤ p.hvac_capacity_kw) (T_i sp : ℚ) (mode : ℤ) (prev : String) :
    |(hvac_controller p T_i sp mode prev).1| ≤ p.hvac_capacity_kw * 1000 := by
  have hc : (0:ℚ) ≤ p.hvac_capacity_kw * 1000 := by positivity
  have h0 : |(0:ℚ)| ≤ p.hvac_capacity_kw * 1000 := by simpa using hc
  have hmin : ∀ e : ℚ, e > DEADBAND →
      |min (e * 10000) (p.hvac_capacity_kw * 1000)| ≤ p.hvac_capacity_kw * 1000 := by
    intro e he
    have hd : DEADBAND = (1/2:ℚ) := rfl
    rw [hd] at he
    rw [abs_le]
    exact ⟨le_min (by linarith) (by linarith), min_le_right _ _⟩
  have hmax : ∀ e : ℚ, e < -DEADBAND →
      |max (e * 10000) (-(p.hvac_capacity_kw * 1000))| ≤ p.hvac_capacity_kw * 1000 := by
    intro e he
    have hd : DEADBAND = (1/2:ℚ) := rfl
    rw [hd] at he
    rw [abs_le]
    exact ⟨le_max_right _ _, max_le (by linarith) (by linarith)⟩
  unfold hvac_controller
  dsimp only
  split_ifs with h1 h2 h3 h4 h5 h6 h7
  · exact h0
  · exact hmin _ h3
  · exact h0
  · exact hmax _ h5
  · exact h0
  · exact hmin _ h6
  · exact hmax _ h7
  · exact h0

end ThermalModel2R2C

theorem round2_clamp_10_40 (t : ℚ) :
    10 ≤ round2 (max 10 (min 40 t)) ∧ round2 (max 10 (min 40 t)) ≤ 40 := by
  have h1 : (10:ℚ) ≤ max 10 (min 40 t) := le_max_left _ _
  have h2 : max 10 (min 40 t) ≤ 40 := max_le (by norm_num) (min_le_left _ _)
  have e10 : round2 (10:ℚ) = 10 := by simpa using round2_intCast 10
  have e40 : round2 (40:ℚ) = 40 := by simpa using round2_intCast 40
  constructor
  · have h := round2_le_round2 h1; rw [e10] at h; exact h
  · have h := round2_le_round2 h2; rw [e40] at h; exact h

theorem round2_clamp_5_45 (t : ℚ) :
    5 ≤ round2 (max 5 (min 45 t)) ∧ round2 (max 5 (min 45 t)) ≤ 45 := by
  have h1 : (5:ℚ) ≤ max 5 (min 45 t) := le_max_left _ _
  have h2 : max 5 (min 45 t) ≤ 45 := max_le (by norm_num) (min_le_left _ _)
  have e5 : round2 (5:ℚ) = 5 := by simpa using round2_intCast 5
  have e45 : round2 (45:ℚ) = 45 := by simpa using round2_intCast 45
  constructor
  · have h := round2_le_round2 h1; rw [e5] at h; exact h
  · have h := round2_le_round2 h2; rw [e45] at h; exact h

namespace ThermalModel2R2C

theorem simStep_some {p : ThermalParameters} {inp : SimulationInputs} {prices : List ℚ}
    {st st' : LoopState} (h : simStep p inp prices st = some st') :
    st'.idx = st.idx + 1 ∧
    (∃ x, st'.T_i_hist = st.T_i_hist ++ [x] ∧ 10 ≤ x ∧ x ≤ 40) ∧
    (∃ x, st'.T_w_hist = st.T_w_hist ++ [x] ∧ 5 ≤ x ∧ x ≤ 45) ∧
    (∃ q, st'.Q_raw_hist = st.Q_raw_hist ++ [q] ∧
      st'.Q_hvac_hist = st.Q_hvac_hist ++ [round2 (q / 1000)] ∧
      st'.cumulative_energy = st.cumulative_energy + stepElectricalKwh p q ∧
      (0 ≤ p.hvac_capacity_kw → |q| ≤ p.hvac_capacity_kw * 1000)) := by
  unfold simStep at h
  split at h
  · injection h with h
    subst h
    refine ⟨rfl, ⟨_, rfl, (round2_clamp_10_40 _).1, (round2_clamp_10_40 _).2⟩,
      ⟨_, rfl, (round2_clamp_5_45 _).1, (round2_clamp_5_45 _).2⟩,
      ⟨_, rfl, rfl, rfl, fun hcap => hvac_controller_abs_le p hcap _ _ _ _⟩⟩
  · exact absurd h (by simp)

end ThermalModel2R2C

namespace ThermalModel2R2C

theorem simLoop_shape (p : ThermalParameters) (inp : SimulationInputs) (prices : List ℚ)
    (k : ℕ) : ∀ (st st' : LoopState), simLoop p inp prices k st = some st' →
    st'.idx = st.idx + k ∧
    (∃ li, st'.T_i_hist = st.T_i_hist ++ li ∧ li.length = k ∧ ∀ x ∈ li, 10 ≤ x ∧ x ≤ 40) ∧
    (∃ lw, st'.T_w_hist = st.T_w_hist ++ lw ∧ lw.length = k ∧ ∀ x ∈ lw, 5 ≤ x ∧ x ≤ 45) ∧
    (∃ lq, st'.Q_raw_hist = st.Q_raw_hist ++ lq ∧ lq.length = k ∧
      st'.Q_hvac_hist = st.Q_hvac_hist ++ lq.map (fun q => round2 (q / 1000)) ∧
      st'.cumulative_energy = st.cumulative_energy + (lq.map (stepElectricalKwh p)).sum ∧
      (0 ≤ p.hvac_capacity_kw → ∀ q ∈ lq, |q| ≤ p.hvac_capacity_kw * 1000)) := by
  induction k with
  | zero =>
      intro st st' h
      simp only [simLoop] at h
      injection h with h
      subst h
      exact ⟨rfl, ⟨[], by simp, rfl, by simp⟩, ⟨[], by simp, rfl, by simp⟩,
        ⟨[], by simp, rfl, by simp, by simp, fun _ => by simp⟩⟩
  | succ k ih =>
      intro st st' h
      simp only [simLoop] at h
      obtain ⟨st1, hstep, hrest⟩ := Option.bind_eq_some.mp h
      obtain ⟨hidx, ⟨x, hx, hx1, hx2⟩, ⟨y, hy, hy1, hy2⟩, ⟨q, hq, hqh, hqc, hqb⟩⟩ :=
        simStep_some hstep
      obtain ⟨hidx2, ⟨li, hli, hlil, hlib⟩, ⟨lw, hlw, hlwl, hlwb⟩,
        ⟨lq, hlq, hlql, hlqh, hlqc, hlqb⟩⟩ := ih st1 st' hrest
      refine ⟨by omega, ⟨x :: li, ?_, by simp [hlil], ?_⟩,
        ⟨y :: lw, ?_, by simp [hlwl], ?_⟩,
        ⟨q :: lq, ?_, by simp [hlql], ?_, ?_, ?_⟩⟩
      · rw [hli, hx]; simp
      · intro z hz
        rcases List.mem_cons.mp hz with hz | hz
        · exact hz ▸ ⟨hx1, hx2⟩
        · exact hlib z hz
      · rw [hlw, hy]; simp
      · intro z hz
        rcases List.mem_cons.mp hz with hz | hz
        · exact hz ▸ ⟨hy1, hy2⟩
        · exact hlwb z hz
      · rw [hlq, hq]; simp
      · rw [hlqh, hqh]; simp
      · rw [hlqc, hqc]; simp [List.sum_cons]; ring
      · intro hcap z hz
        rcases List.mem_cons.mp hz with hz | hz
        · exact hz ▸ hqb hcap
        · exact hlqb hcap z hz

theorem simLoop_total (p : ThermalParameters) (inp : SimulationInputs) (prices : List ℚ)
    (k : ℕ) : ∀ (st : LoopState),
    st.idx + k ≤ inp.timestamps.length →
    st.idx + k ≤ inp.solar_radiation.length →
    st.idx + k ≤ inp.occupancy.length →
    st.idx + k ≤ inp.setpoint.length →
    st.idx + k ≤ inp.hvac_mode.length →
    st.idx + k ≤ inp.T_ext.length →
    st.idx + k ≤ prices.length →
    ∃ st', simLoop p inp prices k st = some st' := by
  induction k with
  | zero => intro st _ _ _ _ _ _ _; exact ⟨st, rfl⟩
  | succ k ih =>
      intro st h1 h2 h3 h4 h5 h6 h7
      have e1 := List.getElem?_eq_getElem (l := inp.timestamps) (n := st.idx) (by omega)
      have e2 := List.getElem?_eq_getElem (l := inp.solar_radiation) (n := st.idx) (by omega)
      have e3 := List.getElem?_eq_getElem (l := inp.occupancy) (n := st.idx) (by omega)
      have e4 := List.getElem?_eq_getElem (l := inp.setpoint) (n := st.idx) (by omega)
      have e5 := List.getElem?_eq_getElem (l := inp.hvac_mode) (n := st.idx) (by omega)
      have e6 := List.getElem?_eq_getElem (l := inp.T_ext) (n := st.idx) (by omega)
      have e7 := List.getElem?_eq_getElem (l := prices) (n := st.idx) (by omega)
      have hstep : ∃ st1, simStep p inp prices st = some st1 ∧ st1.idx = st.idx + 1 := by
        unfold simStep
        rw [e1, e2, e3, e4, e5, e6, e7]
        exact ⟨_, rfl, rfl⟩
      obtain ⟨st1, hs, hidx⟩ := hstep
      obtain ⟨st', h'⟩ := ih st1 (by omega) (by omega) (by omega) (by omega)
        (by omega) (by omega) (by omega)
      refine ⟨st', ?_⟩
      simp only [simLoop]
      rw [hs]
      exact h'

end ThermalModel2R2C

/-- Fixed point: `round2` fixes zero. -/
theorem round2_zero : round2 0 = 0 := by simp [round2]

/-- A simulation input whose series are all zero-length. -/
def emptyInputs : SimulationInputs :=
  { timestamps := [], T_ext := [], solar_radiation := [], occupancy := []
    setpoint := [], hvac_mode := [] }

/-- A well-formed two-sample input (one integration step), HVAC off. -/
def inputs2 : SimulationInputs :=
  { timestamps := [0, 3600], T_ext := [20, 20], solar_radiation := [0, 0]
    occupancy := [0, 0], setpoint := [22, 22], hvac_mode := [0, 0] }

/-- A three-sample input in heating mode with a setpoint well above the
interior temperature. -/
def inputsHeat : SimulationInputs :=
  { timestamps := [0, 3600, 7200], T_ext := [20, 20, 20]
    solar_radiation := [0, 0, 0], occupancy := [0, 0, 0]
    setpoint := [30, 30, 30], hvac_mode := [1, 1, 1] }

/-- C1.  The claim says `simulate` rejects zero-length series with an
invalid-input failure and never silently returns a result for them.  The
code has no input validation: on the all-empty input it silently returns
a `SimulationResult` (containing just the initial state). -/
theorem c1_counterexample :
    (ThermalModel2R2C.simulate {} emptyInputs).isSome = true ∧
    (ThermalModel2R2C.simulate {} emptyInputs).map SimulationResult.T_internal =
      some [22] := by
  exact ⟨rfl, rfl⟩

/-- C1 (amended).  `simulate` performs no input validation: given
all-zero-length series it silently returns a `SimulationResult` whose
temperature trajectories hold only the initial state, with empty
timestamp and power series and zero total energy; no invalid-input
failure is raised. -/
theorem c1_theorem (p : ThermalParameters) (inp : SimulationInputs)
    (h1 : inp.timestamps = []) (_h2 : inp.T_ext = []) (_h3 : inp.solar_radiation = [])
    (_h4 : inp.occupancy = []) (_h5 : inp.setpoint = []) (_h6 : inp.hvac_mode = []) :
    ∃ r, ThermalModel2R2C.simulate p inp = some r ∧
      r.T_internal = [inp.initial_T_i] ∧ r.T_wall = [inp.initial_T_w] ∧
      r.timestamps = [] ∧ r.Q_hvac = [] ∧ r.total_energy_kwh = 0 := by
  refine ⟨ThermalModel2R2C.assemble inp (ThermalModel2R2C.initState inp),
    ?_, rfl, rfl, ?_, rfl, ?_⟩
  · unfold ThermalModel2R2C.simulate
    rw [h1]
    rfl
  · show inp.timestamps = []
    exact h1
  · show round2 0 = 0
    exact round2_zero

/-- C1 witness: the amended statement at the concrete empty input. -/
theorem c1_witness :
    ∃ r, ThermalModel2R2C.simulate {} emptyInputs = some r ∧
      r.T_internal = [22] ∧ r.T_wall = [22] ∧
      r.timestamps = [] ∧ r.Q_hvac = [] ∧ r.total_energy_kwh = 0 :=
  c1_theorem {} emptyInputs rfl rfl rfl rfl rfl rfl

/-- C2.  The claim says the temperature trajectories have N+1 samples
when every series has length N.  On the concrete two-sample input the
returned interior trajectory has 2 points, not 3: the loop executes
`n_steps - 1` integration steps, so a series length of N yields N
trajectory points. -/
theorem c2_counterexample :
    (ThermalModel2R2C.simulate {} inputs2).map (fun r => r.T_internal.length) =
      some 2 ∧
    (ThermalModel2R2C.simulate {} inputs2).map (fun r => r.T_internal.length) ≠
      some 3 := by
  constructor
  · rfl
  · decide

/-- C2 (amended).  For every `SimulationInputs` whose series all have
length N (N ≥ 1, the optional price series included), `simulate` returns
a result whose interior and envelope temperature trajectories have
exactly N sample points -- the initial state plus one point per executed
integration step (`N - 1` steps) -- the first being the supplied initial
state. -/
theorem c2_theorem (p : ThermalParameters) (inp : SimulationInputs) (N : ℕ)
    (hN : 1 ≤ N)
    (h1 : inp.timestamps.length = N) (h2 : inp.T_ext.length = N)
    (h3 : inp.solar_radiation.length = N) (h4 : inp.occupancy.length = N)
    (h5 : inp.setpoint.length = N) (h6 : inp.hvac_mode.length = N)
    (h7 : ∀ l ∈ inp.electricity_price, l.length = N) :
    ∃ r, ThermalModel2R2C.simulate p inp = some r ∧
      r.T_internal.length = N ∧ r.T_wall.length = N ∧
      r.T_internal.head? = some inp.initial_T_i ∧
      r.T_wall.head? = some inp.initial_T_w := by
  have hpr : (inp.electricity_price.getD
      (List.replicate inp.timestamps.length (3/20))).length = N := by
    cases hep : inp.electricity_price with
    | none => simp [h1]
    | some l =>
        have := h7 l (by rw [hep]; rfl)
        simpa using this
  obtain ⟨st', hst'⟩ := ThermalModel2R2C.simLoop_total p inp
    (inp.electricity_price.getD (List.replicate inp.timestamps.length (3/20))) (N - 1)
    (ThermalModel2R2C.initState inp)
    (by simp only [ThermalModel2R2C.initState]; omega)
    (by simp only [ThermalModel2R2C.initState]; omega)
    (by simp only [ThermalModel2R2C.initState]; omega)
    (by simp only [ThermalModel2R2C.initState]; omega)
    (by simp only [ThermalModel2R2C.initState]; omega)
    (by simp only [ThermalModel2R2C.initState]; omega)
    (by simp only [ThermalModel2R2C.initState]; omega)
  obtain ⟨_, ⟨li, hli, hlil, _⟩, ⟨lw, hlw, hlwl, _⟩, _⟩ :=
    ThermalModel2R2C.simLoop_shape p inp
      (inp.electricity_price.getD (List.replicate inp.timestamps.length (3/20)))
      (N - 1) _ st' hst'
  refine ⟨ThermalModel2R2C.assemble inp st', ?_, ?_, ?_, ?_, ?_⟩
  · unfold ThermalModel2R2C.simulate
    dsimp only
    rw [h1] at hst' ⊢
    rw [hst']
    rfl
  · show st'.T_i_hist.length = N
    rw [hli]
    simp only [ThermalModel2R2C.initState, List.length_append, List.length_singleton]
    omega
  · show st'.T_w_hist.length = N
    rw [hlw]
    simp only [ThermalModel2R2C.initState, List.length_append, List.length_singleton]
    omega
  · show st'.T_i_hist.head? = some inp.initial_T_i
    rw [hli]
    rfl
  · show st'.T_w_hist.head? = some inp.initial_T_w
    rw [hlw]
    rfl

/-- C2 witness: the amended statement at the concrete two-sample
input. -/
theorem c2_witness :
    ∃ r, ThermalModel2R2C.simulate {} inputs2 = some r ∧
      r.T_internal.length = 2 ∧ r.T_wall.length = 2 ∧
      r.T_internal.head? = some 22 ∧ r.T_wall.head? = some 22 :=
  c2_theorem {} inputs2 2 (by norm_num) rfl rfl rfl rfl rfl rfl (by simp [inputs2])

/-- C4 (confirmed).  For every run over equal-length series (the
energy-accounting invariant): there is a list `qs` of the executed
steps' raw thermal powers (W) -- it is exactly the list whose values,
converted to kW and rounded, the result reports as `Q_hvac` -- such that
`total_energy_kwh` is the rounded sum of the spec's per-step electrical
contributions over `qs`, hence equal to that sum to rounding tolerance
(1/200 kWh). -/
theorem c4_theorem (p : ThermalParameters) (inp : SimulationInputs) (N : ℕ)
    (h1 : inp.timestamps.length = N) (h2 : inp.T_ext.length = N)
    (h3 : inp.solar_radiation.length = N) (h4 : inp.occupancy.length = N)
    (h5 : inp.setpoint.length = N) (h6 : inp.hvac_mode.length = N)
    (h7 : ∀ l ∈ inp.electricity_price, l.length = N) :
    ∃ (r : SimulationResult) (qs : List ℚ), ThermalModel2R2C.simulate p inp = some r ∧
      r.Q_hvac = qs.map (fun q => round2 (q / 1000)) ∧
      r.total_energy_kwh =
        round2 ((qs.map (ThermalModel2R2C.stepElectricalKwh p)).sum) ∧
      |r.total_energy_kwh - (qs.map (ThermalModel2R2C.stepElectricalKwh p)).sum| ≤
        1/200 := by
  have hpr : (inp.electricity_price.getD
      (List.replicate inp.timestamps.length (3/20))).length = N := by
    cases hep : inp.electricity_price with
    | none => simp [h1]
    | some l =>
        have := h7 l (by rw [hep]; rfl)
        simpa using this
  obtain ⟨st', hst'⟩ := ThermalModel2R2C.simLoop_total p inp
    (inp.electricity_price.getD (List.replicate inp.timestamps.length (3/20))) (N - 1)
    (ThermalModel2R2C.initState inp)
    (by simp only [ThermalModel2R2C.initState]; omega)
    (by simp only [ThermalModel2R2C.initState]; omega)
    (by simp only [ThermalModel2R2C.initState]; omega)
    (by simp only [ThermalModel2R2C.initState]; omega)
    (by simp only [ThermalModel2R2C.initState]; omega)
    (by simp only [ThermalModel2R2C.initState]; omega)
    (by simp only [ThermalModel2R2C.initState]; omega)
  obtain ⟨_, _, _, ⟨lq, hlq, hlql, hlqh, hlqc, _⟩⟩ :=
    ThermalModel2R2C.simLoop_shape p inp
      (inp.electricity_price.getD (List.replicate inp.timestamps.length (3/20)))
      (N - 1) _ st' hst'
  refine ⟨ThermalModel2R2C.assemble inp st', lq, ?_, ?_, ?_, ?_⟩
  · unfold ThermalModel2R2C.simulate
    dsimp only
    rw [h1] at hst' ⊢
    rw [hst']
    rfl
  · show st'.Q_hvac_hist = _
    rw [hlqh]
    rfl
  · show round2 st'.cumulative_energy = _
    rw [hlqc]
    simp only [ThermalModel2R2C.initState, zero_add]
  · show |round2 st'.cumulative_energy - _| ≤ 1/200
    rw [hlqc]
    simp only [ThermalModel2R2C.initState, zero_add]
    exact round2_sub_abs_le _

/-- C4 witness: the invariant at the concrete heating input. -/
theorem c4_witness :
    ∃ (r : SimulationResult) (qs : List ℚ), ThermalModel2R2C.simulate {} inputsHeat = some r ∧
      r.Q_hvac = qs.map (fun q => round2 (q / 1000)) ∧
      r.total_energy_kwh =
        round2 ((qs.map (ThermalModel2R2C.stepElectricalKwh {})).sum) ∧
      |r.total_energy_kwh - (qs.map (ThermalModel2R2C.stepElectricalKwh {})).sum| ≤
        1/200 :=
  c4_theorem {} inputsHeat 3 rfl rfl rfl rfl rfl rfl (by simp [inputsHeat])

/-- Parameters with a pathological (but per the dataclass legal) tiny
HVAC capacity of 0.006 kW. -/
def tinyCapParams : ThermalParameters := { hvac_capacity_kw := 3/500 }

/-- Heating input driving the controller into the capacity clip. -/
def inputsTiny : SimulationInputs :=
  { timestamps := [0, 3600], T_ext := [20, 20], solar_radiation := [0, 0]
    occupancy := [0, 0], setpoint := [30, 30], hvac_mode := [1, 1] }

/-- C5.  The claim says `peak_power_kw` never exceeds
`hvac_capacity_kw`.  With capacity 0.006 kW the one executed step clips
the thermal power to 6 W = 0.006 kW, which the per-step rounding stores
as 0.01 kW, so the reported peak is 0.01 kW > 0.006 kW. -/
theorem c5_counterexample :
    (ThermalModel2R2C.simulate tinyCapParams inputsTiny).map
      (fun r => r.peak_power_kw) = some (1/100) ∧
    ¬ ((1/100 : ℚ) ≤ tinyCapParams.hvac_capacity_kw) := by
  constructor
  · with_unfolding_all decide
  · with_unfolding_all decide

/-- C5 (amended).  The controller's signed thermal power is clipped to
the equipment capacity exactly (`|Q| ≤ hvac_capacity_kw` after W→kW
conversion), for every step and mode; `peak_power_kw`, being the maximum
of the per-step powers after their rounding to two decimals, can exceed
`hvac_capacity_kw` only by the rounding quantum: it never exceeds
`hvac_capacity_kw + 1/200`. -/
theorem c5_theorem (p : ThermalParameters) (inp : SimulationInputs) (N : ℕ)
    (hcap : 0 ≤ p.hvac_capacity_kw)
    (h1 : inp.timestamps.length = N) (h2 : inp.T_ext.length = N)
    (h3 : inp.solar_radiation.length = N) (h4 : inp.occupancy.length = N)
    (h5 : inp.setpoint.length = N) (h6 : inp.hvac_mode.length = N)
    (h7 : ∀ l ∈ inp.electricity_price, l.length = N) :
    (∀ (T_i sp : ℚ) (mode : ℤ) (prev : String),
      |(ThermalModel2R2C.hvac_controller p T_i sp mode prev).1| ≤
        p.hvac_capacity_kw * 1000) ∧
    ∃ r, ThermalModel2R2C.simulate p inp = some r ∧
      r.peak_power_kw ≤ p.hvac_capacity_kw + 1/200 := by
  refine ⟨fun T_i sp mode prev =>
    ThermalModel2R2C.hvac_controller_abs_le p hcap T_i sp mode prev, ?_⟩
  have hpr : (inp.electricity_price.getD
      (List.replicate inp.timestamps.length (3/20))).length = N := by
    cases hep : inp.electricity_price with
    | none => simp [h1]
    | some l =>
        have := h7 l (by rw [hep]; rfl)
        simpa using this
  obtain ⟨st', hst'⟩ := ThermalModel2R2C.simLoop_total p inp
    (inp.electricity_price.getD (List.replicate inp.timestamps.length (3/20))) (N - 1)
    (ThermalModel2R2C.initState inp)
    (by simp only [ThermalModel2R2C.initState]; omega)
    (by simp only [ThermalModel2R2C.initState]; omega)
    (by simp only [ThermalModel2R2C.initState]; omega)
    (by simp only [ThermalModel2R2C.initState]; omega)
    (by simp only [ThermalModel2R2C.initState]; omega)
    (by simp only [ThermalModel2R2C.initState]; omega)
    (by simp only [ThermalModel2R2C.initState]; omega)
  obtain ⟨_, _, _, ⟨lq, hlq, hlql, hlqh, hlqc, hlqb⟩⟩ :=
    ThermalModel2R2C.simLoop_shape p inp
      (inp.electricity_price.getD (List.replicate inp.timestamps.length (3/20)))
      (N - 1) _ st' hst'
  refine ⟨ThermalModel2R2C.assemble inp st', ?_, ?_⟩
  · unfold ThermalModel2R2C.simulate
    dsimp only
    rw [h1] at hst' ⊢
    rw [hst']
    rfl
  · show round2 (maxAbs st'.Q_hvac_hist) ≤ p.hvac_capacity_kw + 1/200
    have hQh : st'.Q_hvac_hist = lq.map (fun q => round2 (q / 1000)) := by
      rw [hlqh]; rfl
    have hbound : ∀ z ∈ st'.Q_hvac_hist, |z| ≤ p.hvac_capacity_kw + 1/200 := by
      intro z hz
      rw [hQh] at hz
      obtain ⟨q, hq, rfl⟩ := List.mem_map.mp hz
      have hq1 : |q| ≤ p.hvac_capacity_kw * 1000 := hlqb hcap q hq
      have hq2 : |q / 1000| ≤ p.hvac_capacity_kw := by
        rw [abs_div]
        have : |(1000 : ℚ)| = 1000 := by norm_num
        rw [this, div_le_iff₀ (by norm_num : (0:ℚ) < 1000)]
        exact hq1
      calc |round2 (q / 1000)| ≤ |q / 1000| + 1/200 := abs_round2_le _
        _ ≤ p.hvac_capacity_kw + 1/200 := by linarith
    have hmax : maxAbs st'.Q_hvac_hist ≤ p.hvac_capacity_kw + 1/200 :=
      maxAbs_le (by linarith) hbound
    have hform : ∃ n : ℤ, maxAbs st'.Q_hvac_hist = (n : ℚ)/100 := by
      refine maxAbs_int_div ?_
      intro z hz
      rw [hQh] at hz
      obtain ⟨q, _, rfl⟩ := List.mem_map.mp hz
      exact ⟨round (q / 1000 * 100), rfl⟩
    obtain ⟨n, hn⟩ := hform
    rw [hn, round2_int_div]
    rw [← hn]
    exact hmax

/-- C5 witness: the amended statement at the default parameters and the
concrete heating input. -/
theorem c5_witness :
    (∀ (T_i sp : ℚ) (mode : ℤ) (prev : String),
      |(ThermalModel2R2C.hvac_controller {} T_i sp mode prev).1| ≤
        ({} : ThermalParameters).hvac_capacity_kw * 1000) ∧
    ∃ r, ThermalModel2R2C.simulate {} inputsHeat = some r ∧
      r.peak_power_kw ≤ ({} : ThermalParameters).hvac_capacity_kw + 1/200 :=
  c5_theorem {} inputsHeat 3 (by norm_num) rfl rfl rfl rfl rfl rfl
    (by simp [inputsHeat])

/-- C9 (confirmed).  `simulate` is deterministic: structurally equal
parameters and inputs (initial conditions and timestamps included)
produce equal results -- the embedded computation is a pure function of
its arguments, and the source reads no external state inside the run. -/
theorem c9_theorem (p1 p2 : ThermalParameters) (i1 i2 : SimulationInputs)
    (hp : p1 = p2) (hi : i1 = i2) :
    ThermalModel2R2C.simulate p1 i1 = ThermalModel2R2C.simulate p2 i2 := by
  rw [hp, hi]

/-- C9 witness: determinism at the concrete two-sample input. -/
theorem c9_witness :
    ThermalModel2R2C.simulate {} inputs2 = ThermalModel2R2C.simulate {} inputs2 :=
  c9_theorem {} {} inputs2 inputs2 rfl rfl

/-- C10 (confirmed).  Whenever `simulate` returns a result, the first
interior sample is exactly `initial_T_i` and the first envelope sample
exactly `initial_T_w` -- no clamping or rounding touches them -- while
every subsequent interior sample lies in [10, 40] and every subsequent
envelope sample in [5, 45] (clamped, then rounded to two decimals). -/
theorem c10_theorem (p : ThermalParameters) (inp : SimulationInputs)
    (r : SimulationResult) (h : ThermalModel2R2C.simulate p inp = some r) :
    r.T_internal.head? = some inp.initial_T_i ∧
    r.T_wall.head? = some inp.initial_T_w ∧
    (∀ x ∈ r.T_internal.tail, 10 ≤ x ∧ x ≤ 40) ∧
    (∀ x ∈ r.T_wall.tail, 5 ≤ x ∧ x ≤ 45) := by
  unfold ThermalModel2R2C.simulate at h
  dsimp only at h
  obtain ⟨st', hst', hr⟩ := Option.map_eq_some'.mp h
  obtain ⟨_, ⟨li, hli, _, hlib⟩, ⟨lw, hlw, _, hlwb⟩, _⟩ :=
    ThermalModel2R2C.simLoop_shape p inp _ _ _ st' hst'
  subst hr
  refine ⟨?_, ?_, ?_, ?_⟩
  · show st'.T_i_hist.head? = some inp.initial_T_i
    rw [hli]; rfl
  · show st'.T_w_hist.head? = some inp.initial_T_w
    rw [hlw]; rfl
  · show ∀ x ∈ st'.T_i_hist.tail, 10 ≤ x ∧ x ≤ 40
    rw [hli]
    intro x hx
    exact hlib x (by simpa using hx)
  · show ∀ x ∈ st'.T_w_hist.tail, 5 ≤ x ∧ x ≤ 45
    rw [hlw]
    intro x hx
    exact hlwb x (by simpa using hx)

/-- Two-sample input whose initial state lies far outside the clamp
bounds. -/
def inputsHot : SimulationInputs :=
  { timestamps := [0, 3600], T_ext := [20, 20], solar_radiation := [0, 0]
    occupancy := [0, 0], setpoint := [22, 22], hvac_mode := [0, 0]
    initial_T_i := 99, initial_T_w := 99 }

/-- C10 witness: with initial temperatures 99 °C (outside both clamp
ranges) the first samples are still exactly 99. -/
theorem c10_witness :
    (ThermalModel2R2C.simulate {} inputsHot).map (fun r => r.T_internal.head?) =
      some (some 99) ∧
    (ThermalModel2R2C.simulate {} inputsHot).map (fun r => r.T_wall.head?) =
      some (some 99) := by
  cases hyp : ThermalModel2R2C.simulate {} inputsHot with
  | none => exact absurd hyp (by decide)
  | some r =>
      obtain ⟨hh1, hh2, _, _⟩ := c10_theorem {} inputsHot r hyp
      constructor
      · simp only [Option.map_some']
        rw [hh1]
        rfl
      · simp only [Option.map_some']
        rw [hh2]
        rfl

namespace MPCController

theorem temps_to_setpoints_length (cfg : MPCConfig) (temps powers : List ℚ) :
    (temps_to_setpoints cfg temps powers).length = min (temps.length - 1) powers.length := by
  simp [temps_to_setpoints]

theorem buildSchedule_total (sp t pw pr occ te : List ℚ) (ch : ℤ) :
    ∀ (n k : ℕ), k + n ≤ sp.length → k + n ≤ t.length → k + n ≤ pw.length →
      k + n ≤ pr.length → k + n ≤ occ.length → k + n ≤ te.length →
    ∃ l, buildSchedule sp t pw pr occ te ch k n = some l := by
  intro n
  induction n with
  | zero => intro k _ _ _ _ _ _; exact ⟨[], rfl⟩
  | succ n ih =>
      intro k h1 h2 h3 h4 h5 h6
      have e1 := List.getElem?_eq_getElem (l := sp) (n := k) (by omega)
      have e2 := List.getElem?_eq_getElem (l := t) (n := k) (by omega)
      have e3 := List.getElem?_eq_getElem (l := pw) (n := k) (by omega)
      have e4 := List.getElem?_eq_getElem (l := pr) (n := k) (by omega)
      have e5 := List.getElem?_eq_getElem (l := occ) (n := k) (by omega)
      have e6 := List.getElem?_eq_getElem (l := te) (n := k) (by omega)
      obtain ⟨l, hl⟩ := ih (k + 1) (by omega) (by omega) (by omega) (by omega)
        (by omega) (by omega)
      simp only [buildSchedule]
      rw [e1, e2, e3, e4, e5, e6, hl]
      exact ⟨_, rfl⟩

theorem build_result_total (cfg : MPCConfig) (temps powers T_ext occ prices : List ℚ)
    (pref : ℚ) (ch : ℤ) (N : ℕ) (status : String)
    (h1 : N ≤ (temps_to_setpoints cfg temps powers).length)
    (h2 : N ≤ temps.length) (h3 : N ≤ powers.length) (h4 : N ≤ prices.length)
    (h5 : N ≤ occ.length) (h6 : N ≤ T_ext.length) :
    ∃ r, build_result cfg temps powers T_ext occ prices pref ch N status = some r ∧
      r.optimization_status = status ∧ r.horizon_hours = N := by
  obtain ⟨l, hl⟩ := buildSchedule_total (temps_to_setpoints cfg temps powers)
    temps powers prices occ T_ext ch N 0 (by omega) (by omega) (by omega)
    (by omega) (by omega) (by omega)
  unfold build_result
  dsimp only
  rw [hl]
  exact ⟨_, rfl, rfl, rfl⟩

theorem simpleStep_none_occ {decay : ℚ} {cfg : MPCConfig}
    {T_ext occ prices : List ℚ} {pref : ℚ} {N : ℕ} {st : SimpleState}
    (h : occ[st.k]? = none) :
    simpleStep decay cfg T_ext occ prices pref N st = none := by
  unfold simpleStep
  rw [h]

theorem simpleStep_none_prices {decay : ℚ} {cfg : MPCConfig}
    {T_ext occ prices : List ℚ} {pref : ℚ} {N : ℕ} {st : SimpleState} {a : ℚ}
    (h1 : occ[st.k]? = some a) (h2 : prices[st.k]? = none) :
    simpleStep decay cfg T_ext occ prices pref N st = none := by
  unfold simpleStep
  rw [h1, h2]

theorem simpleStep_none_T_ext {decay : ℚ} {cfg : MPCConfig}
    {T_ext occ prices : List ℚ} {pref : ℚ} {N : ℕ} {st : SimpleState} {a b : ℚ}
    (h1 : occ[st.k]? = some a) (h2 : prices[st.k]? = some b)
    (h3 : T_ext[st.k]? = none) :
    simpleStep decay cfg T_ext occ prices pref N st = none := by
  unfold simpleStep
  rw [h1, h2, h3]

theorem simpleStep_total (decay : ℚ) (cfg : MPCConfig)
    (T_ext occ prices : List ℚ) (pref : ℚ) (N : ℕ) (st : SimpleState)
    (h1 : st.k < occ.length) (h2 : st.k < prices.length) (h3 : st.k < T_ext.length)
    (h4 : st.k + 1 < N → st.k + 1 < prices.length) :
    ∃ st', simpleStep decay cfg T_ext occ prices pref N st = some st' ∧
      st'.k = st.k + 1 ∧ st'.opt_temps.length = st.opt_temps.length + 1 ∧
      st'.opt_power.length = st.opt_power.length + 1 := by
  have e1 := List.getElem?_eq_getElem (l := occ) (n := st.k) h1
  have e2 := List.getElem?_eq_getElem (l := prices) (n := st.k) h2
  have e3 := List.getElem?_eq_getElem (l := T_ext) (n := st.k) h3
  unfold simpleStep
  rw [e1, e2, e3]
  dsimp only
  by_cases h : st.k + 1 < N
  · rw [if_pos h]
    have e4 := List.getElem?_eq_getElem (l := prices) (n := st.k + 1) (h4 h)
    rw [e4]
    exact ⟨_, rfl, rfl, by simp, by simp⟩
  · rw [if_neg h]
    exact ⟨_, rfl, rfl, by simp, by simp⟩

theorem simpleLoop_total (decay : ℚ) (cfg : MPCConfig)
    (T_ext occ prices : List ℚ) (pref : ℚ) (N : ℕ)
    (hocc : N ≤ occ.length) (hpr : N ≤ prices.length) (hte : N ≤ T_ext.length) :
    ∀ (n : ℕ) (st : SimpleState), st.k + n ≤ N →
    ∃ st', simpleLoop decay cfg T_ext occ prices pref N n st = some st' ∧
      st'.opt_temps.length = st.opt_temps.length + n ∧
      st'.opt_power.length = st.opt_power.length + n := by
  intro n
  induction n with
  | zero => intro st _; exact ⟨st, rfl, by omega, by omega⟩
  | succ n ih =>
      intro st h
      obtain ⟨st1, hs, hk, ht, hp⟩ := simpleStep_total decay cfg T_ext occ prices
        pref N st (by omega) (by omega) (by omega) (fun _ => by omega)
      obtain ⟨st', hl, ht', hp'⟩ := ih st1 (by omega)
      refine ⟨st', ?_, by omega, by omega⟩
      simp only [simpleLoop]
      rw [hs]
      exact hl

theorem simpleLoop_isSome_le (decay : ℚ) (cfg : MPCConfig)
    (T_ext occ prices : List ℚ) (pref : ℚ) (N : ℕ) :
    ∀ (n : ℕ) (st : SimpleState), 1 ≤ n →
      (simpleLoop decay cfg T_ext occ prices pref N n st).isSome = true →
      st.k + n ≤ occ.length ∧ st.k + n ≤ prices.length := by
  intro n
  induction n with
  | zero => intro st h; omega
  | succ n ih =>
      intro st _ hs
      simp only [simpleLoop] at hs
      obtain ⟨st1, h1⟩ : ∃ st1,
          simpleStep decay cfg T_ext occ prices pref N st = some st1 := by
        cases hstep : simpleStep decay cfg T_ext occ prices pref N st with
        | none => rw [hstep] at hs; simp at hs
        | some s => exact ⟨s, rfl⟩
      have hko : st.k < occ.length := by
        by_contra hko
        rw [simpleStep_none_occ (List.getElem?_eq_none (by omega))] at h1
        exact Option.noConfusion h1
      have ea := List.getElem?_eq_getElem (l := occ) (n := st.k) hko
      have hkp : st.k < prices.length := by
        by_contra hkp
        rw [simpleStep_none_prices ea (List.getElem?_eq_none (by omega))] at h1
        exact Option.noConfusion h1
      have eb := List.getElem?_eq_getElem (l := prices) (n := st.k) hkp
      have hkt : st.k < T_ext.length := by
        by_contra hkt
        rw [simpleStep_none_T_ext ea eb (List.getElem?_eq_none (by omega))] at h1
        exact Option.noConfusion h1
      have hk1 : st1.k = st.k + 1 := by
        have ec := List.getElem?_eq_getElem (l := T_ext) (n := st.k) hkt
        unfold simpleStep at h1
        rw [ea, eb, ec] at h1
        dsimp only at h1
        by_cases h : st.k + 1 < N
        · rw [if_pos h] at h1
          cases e4 : prices[st.k + 1]? with
          | none => rw [e4] at h1; exact Option.noConfusion h1
          | some pn =>
              rw [e4] at h1
              injection h1 with h1
              rw [← h1]
        · rw [if_neg h] at h1
          injection h1 with h1
          rw [← h1]
      rcases Nat.eq_zero_or_pos n with hn | hn
      · subst hn
        exact ⟨by omega, by omega⟩
      · rw [h1] at hs
        obtain ⟨ha, hb⟩ := ih st1 hn hs
        exact ⟨by omega, by omega⟩

end MPCController

namespace MPCController

theorem optimize_simple_total (decay : ℚ) (cfg : MPCConfig) (ct : ℚ)
    (T_ext occ prices : List ℚ) (pref : ℚ) (ch : ℤ) (N : ℕ)
    (hocc : N ≤ occ.length) (hpr : N ≤ prices.length) (hte : N ≤ T_ext.length) :
    ∃ r, optimize_simple decay cfg ct T_ext occ prices pref ch N = some r ∧
      r.optimization_status = "heuristic" ∧ r.horizon_hours = N := by
  obtain ⟨st', hl, ht, hp⟩ := simpleLoop_total decay cfg T_ext occ prices pref N
    hocc hpr hte N
    { k := 0, T_current := ct, opt_temps := [ct], opt_power := [] }
    (by show (0:ℕ) + N ≤ N; omega)
  simp only [List.length_singleton, List.length_nil] at ht hp
  obtain ⟨r, hr, hs, hh⟩ := build_result_total cfg st'.opt_temps st'.opt_power
    T_ext occ prices pref ch N "heuristic"
    (by rw [temps_to_setpoints_length]; omega)
    (by omega) (by omega) (by omega) (by omega) (by omega)
  refine ⟨r, ?_, hs, hh⟩
  unfold optimize_simple
  rw [hl]
  simp only [Option.some_bind]
  exact hr

theorem optimize_simple_none (decay : ℚ) (cfg : MPCConfig) (ct : ℚ)
    (T_ext occ prices : List ℚ) (pref : ℚ) (ch : ℤ) (N : ℕ)
    (h : occ.length < N ∨ prices.length < N) :
    optimize_simple decay cfg ct T_ext occ prices pref ch N = none := by
  cases hx : optimize_simple decay cfg ct T_ext occ prices pref ch N with
  | none => rfl
  | some r =>
      exfalso
      unfold optimize_simple at hx
      have hsome : (simpleLoop decay cfg T_ext occ prices pref N N
          { k := 0, T_current := ct, opt_temps := [ct], opt_power := [] }).isSome
          = true := by
        cases hy : simpleLoop decay cfg T_ext occ prices pref N N
            { k := 0, T_current := ct, opt_temps := [ct], opt_power := [] } with
        | none =>
            rw [hy] at hx
            simp only [Option.none_bind] at hx
            exact Option.noConfusion hx
        | some s => rfl
      have hN : 1 ≤ N := by omega
      obtain ⟨ha, hb⟩ := simpleLoop_isSome_le decay cfg T_ext occ prices pref N N
        { k := 0, T_current := ct, opt_temps := [ct], opt_power := [] } hN hsome
      simp only at ha hb
      omega

end MPCController

/-- C6.  The claim says that when a forecast array is shorter than the
horizon the optimizer truncates to the shortest array rather than
failing.  Concretely: weather has 3 entries (horizon 3) but occupancy
only 1; `optimize` hits the missing index and raises (`none`), it does
not return a truncated result. -/
theorem c6_counterexample :
    MPCController.optimize false ⟨"optimal", [], []⟩ (7/10) {} 23
      [30, 30, 30] [0] [1/10, 1/10, 1/10] 22 0 = none := by
  with_unfolding_all decide

/-- C6 (amended).  The solved horizon is
`min(len(weather_forecast), config.horizon_hours)`: every result carries
that horizon, and when the occupancy or price array is shorter than it
the optimizer raises an index error (`none`) rather than truncating;
when both are at least that long the heuristic path returns a result
with exactly that horizon. -/
theorem c6_theorem (avail : Bool) (oracle : SolverOracle) (decay : ℚ)
    (cfg : MPCConfig) (ct : ℚ) (w occf prf : List ℚ) (pref : ℚ) (ch : ℤ) :
    (∀ r, MPCController.optimize avail oracle decay cfg ct w occf prf pref ch =
        some r → r.horizon_hours = min w.length cfg.horizon_hours) ∧
    ((occf.length < min w.length cfg.horizon_hours ∨
      prf.length < min w.length cfg.horizon_hours) →
      MPCController.optimize avail oracle decay cfg ct w occf prf pref ch = none) ∧
    (min w.length cfg.horizon_hours ≤ occf.length →
     min w.length cfg.horizon_hours ≤ prf.length →
     ∃ r, MPCController.optimize false oracle decay cfg ct w occf prf pref ch =
        some r ∧ r.horizon_hours = min w.length cfg.horizon_hours) := by
  refine ⟨?_, ?_, ?_⟩
  · intro r hr
    unfold MPCController.optimize at hr
    dsimp only at hr
    obtain ⟨r', _, hr'⟩ := Option.map_eq_some'.mp hr
    rw [← hr']
  · intro h
    unfold MPCController.optimize
    dsimp only
    rw [Option.map_eq_none']
    cases avail with
    | false =>
        simp only [Bool.false_eq_true, if_false]
        apply MPCController.optimize_simple_none
        rcases h with h | h
        · left; rw [List.length_take]; omega
        · right; rw [List.length_take]; omega
    | true =>
        simp only [if_true]
        unfold MPCController.optimize_cvxpy
        split_ifs with g1 g2 g3 g4
        · rfl
        · rfl
        · rfl
        · exfalso
          rw [List.length_take] at g1 g3
          rcases h with h | h
          · omega
          · omega
        · apply MPCController.optimize_simple_none
          rw [List.length_take] at g1 g3
          rcases h with h | h
          · omega
          · omega
  · intro hocc hpr
    obtain ⟨r, hr, _, hh⟩ := MPCController.optimize_simple_total decay cfg ct
      (w.take (min w.length cfg.horizon_hours))
      (occf.take (min w.length cfg.horizon_hours))
      (prf.take (min w.length cfg.horizon_hours)) pref ch
      (min w.length cfg.horizon_hours)
      (by rw [List.length_take]; omega)
      (by rw [List.length_take]; omega)
      (by rw [List.length_take]; omega)
    refine ⟨{ r with horizon_hours := min w.length cfg.horizon_hours }, ?_, rfl⟩
    unfold MPCController.optimize
    dsimp only
    simp only [Bool.false_eq_true, if_false]
    rw [hr]
    rfl

/-- C6 witness: the amended statement at concrete forecasts (weather
length 2, horizon 24, so N = 2, with adequate occupancy/price arrays). -/
theorem c6_witness :
    ∃ r, MPCController.optimize false ⟨"optimal", [], []⟩ (7/10) {} 23
        [30, 30] [0, 0] [1/10, 1/10] 22 0 = some r ∧
      r.horizon_hours = min ([30, 30] : List ℚ).length (MPCConfig.horizon_hours {}) :=
  (c6_theorem false ⟨"optimal", [], []⟩ (7/10) {} 23 [30, 30] [0, 0]
    [1/10, 1/10] 22 0).2.2 (by with_unfolding_all decide) (by with_unfolding_all decide)

/-- C3 (confirmed).  For every call whose forecast arrays cover the
horizon (and with the solver's variable vectors of their cvxpy shapes
N+1 and N): `optimize` returns a result on every path; when the convex
path is unavailable (`CVXPY_AVAILABLE = false`) or the solve ends in a
status other than optimal/near-optimal, the result is produced by the
rule-based heuristic and tagged `"heuristic"`; a solver status
`optimal`/`optimal_inaccurate` is passed through as the tag; the tag
always lies in the three-status set, and every path returns the same
`MPCResult` schema (the single result type of this embedding). -/
theorem c3_theorem (avail : Bool) (oracle : SolverOracle) (decay : ℚ)
    (cfg : MPCConfig) (ct : ℚ) (w occf prf : List ℚ) (pref : ℚ) (ch : ℤ)
    (hocc : min w.length cfg.horizon_hours ≤ occf.length)
    (hpr : min w.length cfg.horizon_hours ≤ prf.length)
    (hT : oracle.T.length = min w.length cfg.horizon_hours + 1)
    (hQ : oracle.Q.length = min w.length cfg.horizon_hours) :
    ∃ r, MPCController.optimize avail oracle decay cfg ct w occf prf pref ch =
        some r ∧
      ((avail = false ∨ oracle.status ∉ okStatuses) →
        r.optimization_status = "heuristic") ∧
      (avail = true → oracle.status ∈ okStatuses →
        r.optimization_status = oracle.status) ∧
      r.optimization_status ∈ ["optimal", "optimal_inaccurate", "heuristic"] := by
  cases avail with
  | false =>
      obtain ⟨r, hr, hs, _⟩ := MPCController.optimize_simple_total decay cfg ct
        (w.take (min w.length cfg.horizon_hours))
        (occf.take (min w.length cfg.horizon_hours))
        (prf.take (min w.length cfg.horizon_hours)) pref ch
        (min w.length cfg.horizon_hours)
        (by rw [List.length_take]; omega)
        (by rw [List.length_take]; omega)
        (by rw [List.length_take]; omega)
      refine ⟨{ r with horizon_hours := min w.length cfg.horizon_hours }, ?_, ?_, ?_, ?_⟩
      · unfold MPCController.optimize
        dsimp only
        simp only [Bool.false_eq_true, if_false]
        rw [hr]
        rfl
      · intro _
        show r.optimization_status = "heuristic"
        exact hs
      · intro hfalse
        exact absurd hfalse (by simp)
      · show r.optimization_status ∈ _
        rw [hs]
        simp
  | true =>
      by_cases hst : oracle.status ∈ okStatuses
      · obtain ⟨r, hr, hs, _⟩ := MPCController.build_result_total cfg
          oracle.T oracle.Q
          (w.take (min w.length cfg.horizon_hours))
          (occf.take (min w.length cfg.horizon_hours))
          (prf.take (min w.length cfg.horizon_hours)) pref ch
          (min w.length cfg.horizon_hours) oracle.status
          (by rw [MPCController.temps_to_setpoints_length]; omega)
          (by omega) (by omega)
          (by rw [List.length_take]; omega)
          (by rw [List.length_take]; omega)
          (by rw [List.length_take]; omega)
        refine ⟨{ r with horizon_hours := min w.length cfg.horizon_hours },
          ?_, ?_, ?_, ?_⟩
        · unfold MPCController.optimize
          dsimp only
          simp only [if_true]
          unfold MPCController.optimize_cvxpy
          rw [if_neg (by rw [List.length_take]; omega),
            if_neg (by rw [List.length_take]; omega),
            if_neg (by rw [List.length_take]; omega),
            if_pos hst, hr]
          rfl
        · intro hh
          rcases hh with hh | hh
          · exact absurd hh (by simp)
          · exact absurd hst hh
        · intro _ _
          show r.optimization_status = oracle.status
          exact hs
        · show r.optimization_status ∈ _
          rw [hs]
          simp only [okStatuses, List.mem_cons, List.mem_singleton,
            List.not_mem_nil, or_false] at hst
          rcases hst with hst | hst
          · simp [hst]
          · simp [hst]
      · obtain ⟨r, hr, hs, _⟩ := MPCController.optimize_simple_total decay cfg ct
          (w.take (min w.length cfg.horizon_hours))
          (occf.take (min w.length cfg.horizon_hours))
          (prf.take (min w.length cfg.horizon_hours)) pref ch
          (min w.length cfg.horizon_hours)
          (by rw [List.length_take]; omega)
          (by rw [List.length_take]; omega)
          (by rw [List.length_take]; omega)
        refine ⟨{ r with horizon_hours := min w.length cfg.horizon_hours },
          ?_, ?_, ?_, ?_⟩
        · unfold MPCController.optimize
          dsimp only
          simp only [if_true]
          unfold MPCController.optimize_cvxpy
          rw [if_neg (by rw [List.length_take]; omega),
            if_neg (by rw [List.length_take]; omega),
            if_neg (by rw [List.length_take]; omega),
            if_neg hst, hr]
          rfl
        · intro _
          show r.optimization_status = "heuristic"
          exact hs
        · intro _ hmem
          exact absurd hmem hst
        · show r.optimization_status ∈ _
          rw [hs]
          simp

/-- C3 witness: a concrete available-but-failed solve (status
`"infeasible"`) falls back to the heuristic result. -/
theorem c3_witness :
    ∃ r, MPCController.optimize true ⟨"infeasible", [22, 22, 22], [0, 0]⟩ (7/10)
        {} 23 [30, 30] [0, 0] [1/10, 1/10] 22 0 = some r ∧
      ((true = false ∨ ("infeasible" : String) ∉ okStatuses) →
        r.optimization_status = "heuristic") ∧
      (true = true → ("infeasible" : String) ∈ okStatuses →
        r.optimization_status = "infeasible") ∧
      r.optimization_status ∈ ["optimal", "optimal_inaccurate", "heuristic"] :=
  c3_theorem true ⟨"infeasible", [22, 22, 22], [0, 0]⟩ (7/10) {} 23 [30, 30]
    [0, 0] [1/10, 1/10] 22 0 (by with_unfolding_all decide)
    (by with_unfolding_all decide) (by with_unfolding_all decide)
    (by with_unfolding_all decide)

/-- The five scenario families with builders (the closed set the
specification names). -/
def fiveFamilies : List ScenarioType :=
  [.setpoint_change, .occupancy_pattern, .weather_forecast, .demand_response,
   .equipment_efficiency]

/-- A config whose type tag lies outside the five builder families. -/
def cfgSched : ScenarioConfig :=
  { id := "custom", name := "Custom", description := ""
    scenario_type := .schedule_optimization, parameters := {} }

/-- Parameter bag of the aged-equipment preset: COP reduced by 20%. -/
def ps7 : ScenarioParams := { cop_reduction_percent := 20 }

/-- C7 (code bug).  The claim (and the spec's intent) is that an
equipment-efficiency scenario simulates the requested building's model
with only its COPs rescaled.  The code instead builds the scenario model
from `create_building_model("pleiades-a")` regardless of the requested
building: for building `pleiades-b` the scenario model carries
pleiades-a's capacity (150 kW vs the baseline's 80 kW) and floor area
(4500 m² vs 2500 m²).  The inputs are indeed returned unchanged and the
COPs are scaled by the requested 20% -- but on the wrong base model. -/
theorem create_building_model_b :
    create_building_model "pleiades-b" =
      { params := { C_i := 4000000, C_w := 40000000, R_iw := 1/500, R_we := 1/1000
                    A_solar := 70, COP_cool := 7/2, COP_heat := 4
                    hvac_capacity_kw := 80, floor_area_m2 := 2500, n_floors := 2 }
        calibrated := true, calibration_r2 := 17/20 } := by
  unfold create_building_model
  rw [if_neg (by decide : ¬ ("pleiades-b" : String) = "pleiades-a"), if_pos rfl]

theorem create_building_model_a :
    create_building_model "pleiades-a" =
      { params := { C_i := 6000000, C_w := 60000000, R_iw := 1/500, R_we := 1/1000
                    A_solar := 120, COP_cool := 7/2, COP_heat := 4
                    hvac_capacity_kw := 150, floor_area_m2 := 4500, n_floors := 5 }
        calibrated := true, calibration_r2 := 17/20 } := by
  unfold create_building_model
  rw [if_pos rfl]

theorem c7_theorem :
    (ScenarioEngine.build_efficiency_scenario inputs2 ps7
        (create_building_model "pleiades-b")).1 = inputs2 ∧
    (ScenarioEngine.build_efficiency_scenario inputs2 ps7
        (create_building_model "pleiades-b")).2.params.hvac_capacity_kw = 150 ∧
    (create_building_model "pleiades-b").params.hvac_capacity_kw = 80 ∧
    (ScenarioEngine.build_efficiency_scenario inputs2 ps7
        (create_building_model "pleiades-b")).2.params.floor_area_m2 = 4500 ∧
    (create_building_model "pleiades-b").params.floor_area_m2 = 2500 ∧
    (ScenarioEngine.build_efficiency_scenario inputs2 ps7
        (create_building_model "pleiades-b")).2.params.COP_heat = 16/5 ∧
    (ScenarioEngine.build_efficiency_scenario inputs2 ps7
        (create_building_model "pleiades-b")).2.params.COP_cool = 14/5 := by
  refine ⟨rfl, ?_, ?_, ?_, ?_, ?_, ?_⟩ <;>
    simp only [ScenarioEngine.build_efficiency_scenario, ScenarioEngine.copy_inputs,
      create_building_model_a, create_building_model_b, ps7] <;>
    norm_num

/-- Input series (length 2) whose HVAC mode code 7 is outside the
recognized set {0, 1, 2, 3}. -/
def inputsMode7 : SimulationInputs :=
  { timestamps := [0, 3600], T_ext := [20, 20], solar_radiation := [0, 0]
    occupancy := [0, 0], setpoint := [30, 30], hvac_mode := [7, 7] }

/-- C8.  The claim says an HVAC mode code outside {0,1,2,3} is rejected
naming the offending code.  It is not: `simulate` accepts mode 7 and
returns a result, the controller's catch-all `else` treating any
unrecognized code exactly as auto mode. -/
theorem c8_counterexample :
    (ThermalModel2R2C.simulate {} inputsMode7).isSome = true ∧
    ThermalModel2R2C.hvac_controller {} 22 30 7 "idle" =
      ThermalModel2R2C.hvac_controller {} 22 30 3 "idle" := by
  constructor
  · rfl
  · unfold ThermalModel2R2C.hvac_controller
    rw [if_neg (by norm_num : ¬ (7 : ℤ) = 0), if_neg (by norm_num : ¬ (7 : ℤ) = 1),
      if_neg (by norm_num : ¬ (7 : ℤ) = 2), if_neg (by norm_num : ¬ (3 : ℤ) = 0),
      if_neg (by norm_num : ¬ (3 : ℤ) = 1), if_neg (by norm_num : ¬ (3 : ℤ) = 2)]

/-- C8 (amended).  `run_scenario` called with a scenario type outside
the five named transformation families does raise an error naming the
offending type; but `simulate` given an HVAC mode code outside {0,1,2}
is not rejected: the controller behaves for it exactly as for auto mode
(code 3), silently. -/
theorem c8_theorem :
    (∀ (config : ScenarioConfig) (bld : String) (base : SimulationInputs),
      config.scenario_type ∉ fiveFamilies →
      ScenarioEngine.run_scenario config bld base =
        Except.error
          ("Unknown scenario type: " ++ scenarioTypeName config.scenario_type)) ∧
    (∀ (p : ThermalParameters) (T_i sp : ℚ) (prev : String) (m : ℤ),
      m ∉ ([0, 1, 2, 3] : List ℤ) →
      ThermalModel2R2C.hvac_controller p T_i sp m prev =
        ThermalModel2R2C.hvac_controller p T_i sp 3 prev) := by
  constructor
  · intro config bld base h
    cases hcfg : config.scenario_type with
    | setpoint_change => exact absurd (by rw [hcfg]; simp [fiveFamilies]) h
    | occupancy_pattern => exact absurd (by rw [hcfg]; simp [fiveFamilies]) h
    | weather_forecast => exact absurd (by rw [hcfg]; simp [fiveFamilies]) h
    | demand_response => exact absurd (by rw [hcfg]; simp [fiveFamilies]) h
    | equipment_efficiency => exact absurd (by rw [hcfg]; simp [fiveFamilies]) h
    | schedule_optimization =>
        unfold ScenarioEngine.run_scenario
        rw [hcfg]
        rfl
  · intro p T_i sp prev m hm
    simp only [List.mem_cons, List.not_mem_nil, or_false, not_or] at hm
    obtain ⟨h0, h1, h2, _⟩ := hm
    unfold ThermalModel2R2C.hvac_controller
    rw [if_neg h0, if_neg h1, if_neg h2,
      if_neg (by norm_num : ¬ (3 : ℤ) = 0),
      if_neg (by norm_num : ¬ (3 : ℤ) = 1),
      if_neg (by norm_num : ¬ (3 : ℤ) = 2)]

/-- C8 witness: the amended statement at the concrete out-of-family
config and the concrete unrecognized mode code 7. -/
theorem c8_witness :
    ScenarioEngine.run_scenario cfgSched "pleiades-a" emptyInputs =
      Except.error
        ("Unknown scenario type: " ++
          scenarioTypeName ScenarioType.schedule_optimization) ∧
    ThermalModel2R2C.hvac_controller {} 22 30 7 "idle" =
      ThermalModel2R2C.hvac_controller {} 22 30 3 "idle" :=
  ⟨c8_theorem.1 cfgSched "pleiades-a" emptyInputs (by decide),
   c8_theorem.2 {} 22 30 "idle" 7 (by decide)⟩
